import Mathlib

/-!
# libqmatrixclient: job lifecycle and sync decoding

A shallow embedding of `src/jobs/basejob.{h,cpp}`, `src/jobs/syncjob.cpp`,
`src/serverapi/servercallsetup.cpp` and `User::processEvent` of `src/user.cpp`.

Conventions of the embedding.

* A C++ object is a record of its data members; a member function is a function
  from the record to the record.  `qDebug`/`qWarning` output is not modelled.
* A Qt signal emission appends the signal to the `emitted` list of the job.
* Virtual member functions (`checkReply`, `parseReply`, `parseJson`) are passed
  as function arguments, so that a statement quantified over them speaks about
  every subclass.  The data members a subclass adds are the field `sub`.
* Qt itself (the network reply, the timer, the JSON parser) is outside the
  repository: Qt objects are records of the observable state the code reads,
  and `QJsonDocument::fromJson` is a function argument.
-/

namespace QMatrixClient

/-! ## Qt values read by the code -/

/-- Enumerators of `QNetworkReply::NetworkError`. -/
inductive NetworkError where
  | NoError
  | ConnectionRefusedError
  | RemoteHostClosedError
  | HostNotFoundError
  | TimeoutError
  | OperationCanceledError
  | SslHandshakeFailedError
  | TemporaryNetworkFailureError
  | NetworkSessionFailedError
  | BackgroundRequestNotAllowedError
  | TooManyRedirectsError
  | InsecureRedirectError
  | UnknownNetworkError
  | ProxyConnectionRefusedError
  | ProxyConnectionClosedError
  | ProxyNotFoundError
  | ProxyTimeoutError
  | ProxyAuthenticationRequiredError
  | UnknownProxyError
  | ContentAccessDenied
  | ContentOperationNotPermittedError
  | ContentNotFoundError
  | AuthenticationRequiredError
  | ContentReSendError
  | ContentConflictError
  | ContentGoneError
  | UnknownContentError
  | ProtocolUnknownError
  | ProtocolInvalidOperationError
  | ProtocolFailure
  | InternalServerError
  | OperationNotImplementedError
  | ServiceUnavailableError
  | UnknownServerError
  deriving DecidableEq, Repr

/-- Bytes of a `QByteArray`. -/
abbrev QByteArray := List (Fin 256)

/-- Observable state of a `QNetworkReply`: `error()`, `errorString()`, the bytes
`readAll()` has not handed out yet, and `isRunning()`. -/
structure QNetworkReply where
  error : NetworkError
  errorString : String
  buffer : QByteArray
  isRunning : Bool
  deriving DecidableEq, Repr

/-- `QNetworkReply::readAll()`: hands out the buffered bytes and leaves the
buffer empty. -/
def QNetworkReply.readAll (r : QNetworkReply) : QByteArray × QNetworkReply :=
  (r.buffer, { r with buffer := [] })

/-- Observable state of a `QTimer`: whether it is running and its interval in
milliseconds. -/
structure QTimer where
  active : Bool
  interval : Nat
  deriving DecidableEq, Repr

/-- `QTimer::start(msec)`. -/
def QTimer.start (msec : Nat) (_t : QTimer) : QTimer :=
  { active := true, interval := msec }

/-- `QTimer::stop()`. -/
def QTimer.stop (t : QTimer) : QTimer :=
  { t with active := false }

/-! ## Qt JSON values -/

/-- A `QJsonValue`.  Numbers are kept as exact rationals. -/
inductive QJsonValue where
  | null
  | bool (b : Bool)
  | double (d : ℚ)
  | string (s : String)
  | array (a : List QJsonValue)
  | object (o : List (String × QJsonValue))
  | undefined

/-- A `QJsonObject`: its members in the order `keys()` lists them. -/
abbrev QJsonObject := List (String × QJsonValue)

/-- A `QJsonArray`. -/
abbrev QJsonArray := List QJsonValue

/-- A `QJsonDocument`: null, or holding an array, or holding an object. -/
inductive QJsonDocument where
  | null
  | ofArray (a : QJsonArray)
  | ofObject (o : QJsonObject)

/-- `QJsonDocument::object()`: the object, or an empty object when the document
holds none. -/
def QJsonDocument.object : QJsonDocument → QJsonObject
  | .ofObject o => o
  | _ => []

/-- `QJsonObject::value(key)` and `operator[](key)`: the member's value, or
`Undefined` when there is no such member. -/
def QJsonObject.value (o : QJsonObject) (key : String) : QJsonValue :=
  (o.lookup key).getD QJsonValue.undefined

/-- `QJsonObject::keys()`. -/
def QJsonObject.keys (o : QJsonObject) : List String :=
  o.map Prod.fst

/-- `QJsonValue::toObject()`: an empty object when the value is no object. -/
def QJsonValue.toObject : QJsonValue → QJsonObject
  | .object o => o
  | _ => []

/-- `QJsonValue::toArray()`: an empty array when the value is no array. -/
def QJsonValue.toArray : QJsonValue → QJsonArray
  | .array a => a
  | _ => []

/-- `QJsonValue::toString()`: an empty string when the value is no string. -/
def QJsonValue.toString : QJsonValue → String
  | .string s => s
  | _ => ""

/-- `QJsonValue::toBool()`: `false` when the value is no boolean. -/
def QJsonValue.toBool : QJsonValue → Bool
  | .bool b => b
  | _ => false

/-- `QJsonValue::toInt()`: the number when it is whole and fits an `int`,
otherwise 0. -/
def QJsonValue.toInt : QJsonValue → Int
  | .double d =>
      if d.den = 1 ∧ -(2 : Int) ^ 31 ≤ d.num ∧ d.num < (2 : Int) ^ 31 then d.num else 0
  | _ => 0

/-- Result of `QJsonDocument::fromJson(data, &error)` as far as it is read:
`error.error` (0 is `QJsonParseError::NoError`), `error.errorString()` and
`error.offset`. -/
structure QJsonParseError where
  error : Nat
  errorString : String
  offset : Int
  deriving DecidableEq, Repr

/-- The constant `QJsonParseError::NoError`. -/
def QJsonParseError.NoError : Nat := 0

/-! ## `BaseJob::StatusCode` and `BaseJob::Status` (basejob.h) -/

namespace StatusCode

def NoError : Int := 0
def Success : Int := 0
def ErrorLevel : Int := 100
def NetworkError : Int := 100
def JsonParseError : Int := 101
def TimeoutError : Int := 102
def ContentAccessError : Int := 103
def UserDefinedError : Int := 200

end StatusCode

/-- `BaseJob::Status`: a code and a freeform message. -/
structure Status where
  code : Int
  message : String
  deriving DecidableEq, Repr

/-- `Status(StatusCode c) : code(c)`: the message is default-constructed. -/
def Status.ofCode (c : Int) : Status :=
  { code := c, message := "" }

/-- `bool good() const { return code < ErrorLevel; }`. -/
def Status.good (s : Status) : Bool :=
  decide (s.code < StatusCode.ErrorLevel)

/-! ## `BaseJob` (basejob.cpp) -/

/-- Signals declared by `BaseJob`. -/
inductive Signal where
  | finished
  | result
  | success
  | failure
  deriving DecidableEq, Repr

/-- State of a `BaseJob` object whose subclass adds the data members `σ`.

`status`, `reply` and `timer` are the members of `BaseJob::Private` the
lifecycle uses; `replyConnected` says whether the signals of `reply` are
connected to slots of this job; `deleteLaterCalled` records `deleteLater()`;
`emitted` is the sequence of signals emitted so far. -/
structure BaseJob (σ : Type) where
  status : Status
  reply : Option QNetworkReply
  replyConnected : Bool
  timer : QTimer
  deleteLaterCalled : Bool
  emitted : List Signal
  sub : σ

/-- Virtual member functions a subclass may override.  `checkReply` is `const`;
`parseReply` may change the data members of the subclass. -/
structure Virtuals (σ : Type) where
  checkReply : σ → QNetworkReply → Status
  parseReply : QByteArray → σ → Status × σ

namespace BaseJob

variable {σ : Type}

/-- `BaseJob::BaseJob(connection, rc)`: `reply(nullptr), status(NoError)`; the
timer is created stopped. -/
def create (sub : σ) : BaseJob σ :=
  { status := Status.ofCode StatusCode.NoError
    reply := none
    replyConnected := false
    timer := { active := false, interval := 0 }
    deleteLaterCalled := false
    emitted := []
    sub := sub }

/-- `BaseJob::start()`: `sendRequest()` stores the reply `r` returned by the
network access manager, the reply's signals are connected to this job, and the
timer is started with `120*1000` ms. -/
def start (r : QNetworkReply) (j : BaseJob σ) : BaseJob σ :=
  { j with
    reply := some r
    replyConnected := true
    timer := j.timer.start (120 * 1000) }

/-- `BaseJob::error()`. -/
def error (j : BaseJob σ) : Int :=
  j.status.code

/-- `BaseJob::errorString()`. -/
def errorString (j : BaseJob σ) : String :=
  j.status.message

/-- `BaseJob::setStatus(Status s)`. -/
def setStatus (s : Status) (j : BaseJob σ) : BaseJob σ :=
  { j with status := s }

/-- `BaseJob::setStatus(int code, QString message)`. -/
def setStatusCM (code : Int) (message : String) (j : BaseJob σ) : BaseJob σ :=
  setStatus { code := code, message := message } j

/-- `BaseJob::checkReply(QNetworkReply*)`. -/
def checkReply (reply : QNetworkReply) : Status :=
  match reply.error with
  | .NoError => Status.ofCode StatusCode.NoError
  | .AuthenticationRequiredError
  | .ContentAccessDenied
  | .ContentOperationNotPermittedError =>
      { code := StatusCode.ContentAccessError, message := reply.errorString }
  | _ => { code := StatusCode.NetworkError, message := reply.errorString }

/-- `BaseJob::parseJson(const QJsonDocument&)`: the default ignores the
document. -/
def parseJson (_json : QJsonDocument) (sub : σ) : Status × σ :=
  (Status.ofCode StatusCode.Success, sub)

/-- `BaseJob::parseReply(QByteArray)`, with `QJsonDocument::fromJson` and the
virtual `parseJson` as arguments. -/
def parseReply (fromJson : QByteArray → QJsonDocument × QJsonParseError)
    (parseJson : QJsonDocument → σ → Status × σ) (data : QByteArray) (sub : σ) :
    Status × σ :=
  let (json, error) := fromJson data
  if error.error = QJsonParseError.NoError then
    parseJson json sub
  else
    ({ code := StatusCode.JsonParseError, message := error.errorString }, sub)

/-- `BaseJob::finishJob(bool emitResult)`. -/
def finishJob (emitResult : Bool) (j : BaseJob σ) : BaseJob σ :=
  let j := { j with timer := j.timer.stop }
  let j :=
    match j.reply with
    | none => j
    | some r => if r.isRunning then { j with replyConnected := false } else j
  let j := { j with emitted := j.emitted ++ [Signal.finished] }
  let j :=
    if emitResult then
      let j := { j with emitted := j.emitted ++ [Signal.result] }
      if j.error ≠ 0 then
        { j with emitted := j.emitted ++ [Signal.failure] }
      else
        { j with emitted := j.emitted ++ [Signal.success] }
    else j
  { j with deleteLaterCalled := true }

/-- `BaseJob::gotReply()`.  The slot is connected to the `finished` signal of
the reply stored by `start()`, so `d->reply` points to a reply when it runs:
`r` is that reply. -/
def gotReply (v : Virtuals σ) (r : QNetworkReply) (j : BaseJob σ) : BaseJob σ :=
  let j := setStatus (v.checkReply j.sub r) { j with reply := some r }
  let j :=
    if j.status.good then
      let (data, r) := r.readAll
      let (s, sub) := v.parseReply data j.sub
      setStatus s { j with reply := some r, sub := sub }
    else j
  finishJob true j

/-- `BaseJob::abandon()`. -/
def abandon (j : BaseJob σ) : BaseJob σ :=
  finishJob false j

/-- `BaseJob::timeout()`. -/
def timeout (j : BaseJob σ) : BaseJob σ :=
  finishJob true (setStatusCM StatusCode.TimeoutError "The job has timed out" j)

/-- Virtual functions of a job that overrides at most `parseJson`. -/
def defaultVirtuals (fromJson : QByteArray → QJsonDocument × QJsonParseError)
    (parseJson : QJsonDocument → σ → Status × σ) : Virtuals σ :=
  { checkReply := fun _ r => checkReply r
    parseReply := parseReply fromJson parseJson }

/-- Terminal events of a started job: the transport completes with an error
code, error string and body; the timer fires; the owner calls `abandon()`. -/
inductive Event where
  | gotReply (error : NetworkError) (errorString : String) (body : QByteArray)
  | timeout
  | abandon
  deriving DecidableEq, Repr

/-- What a terminal event does to the job.

* The completion of the transport reaches the slot `gotReply` only while the
  `finished` signal of the reply is connected to the job: after
  `d->reply->disconnect(this)` in `finishJob` it does not.  A reply emits
  `finished` once, so after the completion has been handled no further one
  reaches the job either, which the record keeps by clearing `replyConnected`.
* The timer fires only while it is active: after `d->timer.stop()` in
  `finishJob` the slot `timeout` does not run.
* `abandon()` is a public member function the owner calls directly: it runs
  whatever the state of the job.

An event that does not reach the job leaves the record as it is. -/
def handle (v : Virtuals σ) (j : BaseJob σ) : Event → BaseJob σ
  | .gotReply e s b =>
      if j.replyConnected then
        { gotReply v { error := e, errorString := s, buffer := b, isRunning := false } j with
          replyConnected := false }
      else j
  | .timeout => if j.timer.active then timeout j else j
  | .abandon => abandon j

/-- A sequence of terminal events, in order, each handled by `handle`. -/
def deliver (v : Virtuals σ) (j : BaseJob σ) (es : List Event) : BaseJob σ :=
  es.foldl (handle v) j

end BaseJob

/-! ## `CallConfigBase` (servercallsetup.cpp) -/

namespace ServerApi

/-- Modelled from the spec: the status codes of `ServerApi` are declared in
`servercallsetup.h`, which is not among the sources; section 6 of the
specification gives them as success 0, NetworkError 100, JsonParseError 101,
TimeoutError 102, ContentAccessError 103. -/
def NoError : Int := 0

/-- Modelled from the spec: see `ServerApi.NoError`. -/
def NetworkError : Int := 100

/-- Modelled from the spec: see `ServerApi.NoError`. -/
def JsonParseError : Int := 101

/-- Modelled from the spec: see `ServerApi.NoError`. -/
def ContentAccessError : Int := 103

/-- `CallConfigBase::checkReply(const QNetworkReply*)`.  The class
`ServerApi::Status` is declared outside the sources; as in `BaseJob` it is the
record of a code and a message. -/
def CallConfigBase.checkReply (reply : QNetworkReply) : Status :=
  match reply.error with
  | .NoError => Status.ofCode NoError
  | .AuthenticationRequiredError
  | .ContentAccessDenied
  | .ContentOperationNotPermittedError =>
      { code := ContentAccessError, message := reply.errorString }
  | _ => { code := NetworkError, message := reply.errorString }

end ServerApi

/-! ## `SyncRoomData` and `SyncJob` (syncjob.cpp) -/

/-- Modelled from the spec: the enumeration `JoinState` is declared in a header
that is not among the sources; the specification gives its values as Join,
Invite and Leave.  `other` stands for any value outside the three enumerators,
the case the `default:` branch of the `SyncRoomData` constructor handles. -/
inductive JoinState where
  | Join
  | Invite
  | Leave
  | other (raw : Int)
  deriving DecidableEq, Repr

/-- `SyncRoomData::EventList`: a list of events together with the JSON key it
is read from. -/
structure EventList (Ev : Type) where
  jsonKey : String
  events : List Ev

/-- `EventList(QString k) : jsonKey(k)`: an empty list with its key. -/
def EventList.create {Ev : Type} (k : String) : EventList Ev :=
  { jsonKey := k, events := [] }

/-- `SyncRoomData::EventList::fromJson(const QJsonObject&)`.  The function
`eventsFromJson` is declared outside the sources and is an argument. -/
def EventList.fromJson {Ev : Type} (eventsFromJson : QJsonArray → List Ev)
    (roomContents : QJsonObject) (l : EventList Ev) : EventList Ev :=
  { l with
    events :=
      eventsFromJson (((roomContents.value l.jsonKey).toObject.value "events").toArray) }

/-- Data members of `SyncRoomData`. -/
structure SyncRoomData (Ev : Type) where
  roomId : String
  joinState : JoinState
  state : EventList Ev
  timeline : EventList Ev
  ephemeral : EventList Ev
  accountData : EventList Ev
  inviteState : EventList Ev
  timelineLimited : Bool
  timelinePrevBatch : String
  highlightCount : Int
  notificationCount : Int

/-- `SyncRoomData::SyncRoomData(roomId_, joinState_, room_)`. -/
def SyncRoomData.create {Ev : Type} (eventsFromJson : QJsonArray → List Ev)
    (roomId_ : String) (joinState_ : JoinState) (room_ : QJsonObject) : SyncRoomData Ev :=
  let state : EventList Ev := EventList.create "state"
  let timeline : EventList Ev := EventList.create "timeline"
  let ephemeral : EventList Ev := EventList.create "ephemeral"
  let accountData : EventList Ev := EventList.create "account_data"
  let inviteState : EventList Ev := EventList.create "invite_state"
  let lists : EventList Ev × EventList Ev × EventList Ev × EventList Ev × EventList Ev :=
    match joinState_ with
    | .Invite =>
        (state, timeline, ephemeral, accountData, inviteState.fromJson eventsFromJson room_)
    | .Join =>
        (state.fromJson eventsFromJson room_, timeline.fromJson eventsFromJson room_,
          ephemeral.fromJson eventsFromJson room_, accountData.fromJson eventsFromJson room_,
          inviteState)
    | .Leave =>
        (state.fromJson eventsFromJson room_, timeline.fromJson eventsFromJson room_,
          ephemeral, accountData, inviteState)
    | .other _ => (state, timeline, ephemeral, accountData, inviteState)
  let timelineObj := (room_.value "timeline").toObject
  let unread := (room_.value "unread_notifications").toObject
  { roomId := roomId_
    joinState := joinState_
    state := lists.1
    timeline := lists.2.1
    ephemeral := lists.2.2.1
    accountData := lists.2.2.2.1
    inviteState := lists.2.2.2.2
    timelineLimited := (timelineObj.value "limited").toBool
    timelinePrevBatch := (timelineObj.value "prev_batch").toString
    highlightCount := (unread.value "highlight_count").toInt
    notificationCount := (unread.value "notification_count").toInt }

namespace SyncJob

/-- Data members of `SyncJob::Private`. -/
structure Private (Ev : Type) where
  nextBatch : String
  roomData : List (SyncRoomData Ev)

/-- `new Private`: an empty token and no rooms. -/
def Private.create {Ev : Type} : Private Ev :=
  { nextBatch := "", roomData := [] }

/-- The table `roomStates` of `SyncJob::parseJson`. -/
def roomStates : List (String × JoinState) :=
  [("join", JoinState.Join), ("invite", JoinState.Invite), ("leave", JoinState.Leave)]

/-- `SyncJob::parseJson(const QJsonDocument&)`: the two nested loops push one
`SyncRoomData` per key onto `d->roomData`. -/
def parseJson {Ev : Type} (eventsFromJson : QJsonArray → List Ev)
    (data : QJsonDocument) (d : Private Ev) : Status × Private Ev :=
  let json := data.object
  let d := { d with nextBatch := (json.value "next_batch").toString }
  let rooms := (json.value "rooms").toObject
  let d :=
    roomStates.foldl
      (fun d roomState =>
        let rs := (rooms.value roomState.1).toObject
        rs.keys.foldl
          (fun d rkey =>
            { d with
              roomData :=
                d.roomData ++
                  [SyncRoomData.create eventsFromJson rkey roomState.2
                    (rs.value rkey).toObject] })
          d)
      d
  (Status.ofCode StatusCode.Success, d)

/-- The rooms one bucket of the `rooms` object contributes: one `SyncRoomData` per
key of the bucket, in the order of the keys. -/
def bucketRooms {Ev : Type} (eventsFromJson : QJsonArray → List Ev) (rooms : QJsonObject)
    (roomState : String × JoinState) : List (SyncRoomData Ev) :=
  ((rooms.value roomState.1).toObject).keys.map
    (fun rkey =>
      SyncRoomData.create eventsFromJson rkey roomState.2
        (((rooms.value roomState.1).toObject).value rkey).toObject)

/-- `SyncJob::nextBatch()`. -/
def nextBatch {Ev : Type} (d : Private Ev) : String :=
  d.nextBatch

/-- `SyncJob::roomData()`. -/
def roomData {Ev : Type} (d : Private Ev) : List (SyncRoomData Ev) :=
  d.roomData

end SyncJob

/-! ## The decoders of `servercallsetup.cpp` -/

/-- `QJsonDocument::isObject()`. -/
def QJsonDocument.isObject : QJsonDocument → Bool
  | .ofObject _ => true
  | _ => false

namespace ServerApi

/-- Modelled from the spec: the class template `Result<T>` is declared in
`servercallsetup.h`, which is not among the sources; section 4.2 of the
specification gives the decoder's result as either the decoded value or an
error status. -/
inductive Result (α : Type) where
  | error (status : Status)
  | value (a : α)

/-- `FromByteArray::load(QNetworkReply*)`. -/
def FromByteArray.load (reply : QNetworkReply) : QByteArray :=
  reply.readAll.1

/-- `FromJsonObject::load(QNetworkReply*)`, with `QJsonDocument::fromJson` as an
argument.  The two `arg` calls fill the place markers `%1` and `%2` of the
message with the parser's error string and the decimal offset (the error
strings of the parser are fixed texts without place markers); translation by
`tr` is not modelled. -/
def FromJsonObject.load (fromJson : QByteArray → QJsonDocument × QJsonParseError)
    (reply : QNetworkReply) : Result QJsonObject :=
  let (data, error) := fromJson reply.readAll.1
  if error.error ≠ QJsonParseError.NoError then
    Result.error
      { code := JsonParseError
        message := "Invalid JSON: " ++ error.errorString ++ " at offset " ++ toString error.offset }
  else if !data.isObject then
    Result.error
      { code := JsonParseError, message := "The received JSON has no top-level object" }
  else
    Result.value data.object

end ServerApi

/-! ## The request: `SyncJob::SyncJob` and `BaseJob::Private::sendRequest` -/

/-- The enumeration `JobHttpType`, with the enumerators the `switch` of
`sendRequest` names. -/
inductive JobHttpType where
  | GetJob
  | PostJob
  | PutJob
  | DeleteJob
  deriving DecidableEq, Repr

/-- A `QUrlQuery`: its items, key and value, in order. -/
abbrev QUrlQuery := List (String × String)

/-- `QUrlQuery::addQueryItem(key, value)`: the item is appended. -/
def QUrlQuery.addQueryItem (key value : String) (q : QUrlQuery) : QUrlQuery :=
  q ++ [(key, value)]

/-- `QString::isEmpty()`. -/
def QString.isEmpty (s : String) : Bool :=
  decide (s = "")

/-- `QString::number(int)`: the decimal text of the number. -/
def QString.number (n : Int) : String :=
  toString n

/-- Modelled from the spec: the class `RequestConfig` is declared in
`requestconfig.h`, which is not among the sources; section 3 of the
specification gives it as name, method, path, ordered query, body and the
authentication requirement.  The fields carry the names of the accessors the
sources call. -/
structure RequestConfig where
  name : String
  type : JobHttpType
  apiPath : String
  query : QUrlQuery
  data : QByteArray
  needsToken : Bool
  deriving DecidableEq, Repr

/-- `RequestConfig::setQuery(query)`. -/
def RequestConfig.setQuery (q : QUrlQuery) (rc : RequestConfig) : RequestConfig :=
  { rc with query := q }

/-- The parts of a `QUrl` the code reads and writes, and the rest of it. -/
structure QUrl where
  scheme : String
  authority : String
  path : String
  query : QUrlQuery
  deriving DecidableEq, Repr

/-- `QUrl::setPath(path)`. -/
def QUrl.setPath (path : String) (u : QUrl) : QUrl :=
  { u with path := path }

/-- `QUrl::setQuery(const QUrlQuery&)`. -/
def QUrl.setQuery (q : QUrlQuery) (u : QUrl) : QUrl :=
  { u with query := q }

/-- Modelled from the spec: the class `ConnectionData` is declared in
`connectiondata.h`, which is not among the sources; the sources read its base
URL and its access token. -/
structure ConnectionData where
  baseUrl : QUrl
  accessToken : String
  deriving DecidableEq, Repr

/-- A `QNetworkRequest` as `sendRequest` sets it up: the URL, the content type
header, and the redirect settings (present when Qt is 5.6 or later). -/
structure QNetworkRequest where
  url : QUrl
  contentTypeHeader : String
  followRedirects : Bool
  maximumRedirectsAllowed : Option Nat
  deriving DecidableEq, Repr

/-- The call `sendRequest` makes on the network access manager. -/
inductive NamCall where
  | get (req : QNetworkRequest)
  | post (req : QNetworkRequest) (data : QByteArray)
  | put (req : QNetworkRequest) (data : QByteArray)
  | deleteResource (req : QNetworkRequest)
  deriving DecidableEq, Repr

/-- The request of a call on the network access manager. -/
def NamCall.request : NamCall → QNetworkRequest
  | .get req => req
  | .post req _ => req
  | .put req _ => req
  | .deleteResource req => req

/-- `BaseJob::Private::sendRequest()`: the call on the network access manager
whose reply the job then stores.  `qt56` says whether the code is compiled
against Qt 5.6 or later. -/
def BaseJob.Private.sendRequest (qt56 : Bool) (connection : ConnectionData)
    (reqConfig : RequestConfig) : NamCall :=
  let url := connection.baseUrl
  let url := url.setPath (url.path ++ reqConfig.apiPath)
  let query := reqConfig.query
  let query :=
    if reqConfig.needsToken then query.addQueryItem "access_token" connection.accessToken
    else query
  let url := url.setQuery query
  let req : QNetworkRequest :=
    { url := url
      contentTypeHeader := "application/json"
      followRedirects := qt56
      maximumRedirectsAllowed := if qt56 then some 10 else none }
  match reqConfig.type with
  | .GetJob => NamCall.get req
  | .PostJob => NamCall.post req reqConfig.data
  | .PutJob => NamCall.put req reqConfig.data
  | .DeleteJob => NamCall.deleteResource req

/-- `SyncJob::SyncJob(connection, since, filter, timeout, presence)`: the request
description the constructor leaves in the job, and the new value of the global
counter `jobId` (a `size_t`, taken as 64 bits wide). -/
def SyncJob.create (jobId : Nat) (since filter : String) (timeout : Int) (presence : String) :
    RequestConfig × Nat :=
  let jobId := (jobId + 1) % 2 ^ 64
  let rc : RequestConfig :=
    { name := "SyncJob-" ++ toString jobId
      type := JobHttpType.GetJob
      apiPath := "_matrix/client/r0/sync"
      query := []
      data := []
      needsToken := true }
  let query : QUrlQuery := []
  let query := if !QString.isEmpty filter then query.addQueryItem "filter" filter else query
  let query :=
    if !QString.isEmpty presence then query.addQueryItem "set_presence" presence else query
  let query :=
    if timeout ≥ 0 then query.addQueryItem "timeout" (QString.number timeout) else query
  let query := if !QString.isEmpty since then query.addQueryItem "since" since else query
  (rc.setQuery query, jobId)

/-- Modelled from the spec: the function `eventsFromJson` is declared in
`events/event.h`, which is not among the sources; section 3 of the
specification gives an event list as the ordered sequence of the raw event
payloads, so the events of an array are its elements, in order. -/
def eventsFromJson (a : QJsonArray) : List QJsonValue :=
  a

/-! ## `User` (user.cpp) -/

/-- The enumeration `EventType`, declared outside the sources: the enumerator
`RoomMember`, which `processEvent` names, and `other` for every other
enumerator. -/
inductive EventType where
  | RoomMember
  | other (raw : Nat)
  deriving DecidableEq, Repr

/-- What `processEvent` reads of a `RoomMemberEvent`: `displayName()` and
`avatarUrl()`. -/
structure RoomMemberEvent where
  displayName : String
  avatarUrl : QUrl
  deriving DecidableEq, Repr

/-- An `Event` as `processEvent` sees it (the class is declared outside the
sources): an event of type `RoomMember` is a `RoomMemberEvent`, every other
event is known by its type only. -/
inductive Event where
  | roomMember (e : RoomMemberEvent)
  | other (raw : Nat)
  deriving DecidableEq, Repr

/-- `Event::type()`. -/
def Event.type : Event → EventType
  | .roomMember _ => EventType.RoomMember
  | .other raw => EventType.other raw

/-- Signals of `User`: `nameChanged(user, oldName)` and `avatarChanged(user)`. -/
inductive UserSignal where
  | nameChanged (oldName : String)
  | avatarChanged
  deriving DecidableEq, Repr

/-- Data members of `User::Private` (without the back pointers `q` and
`connection`), for a type `Pixmap` of images, and the signals the user has
emitted so far. -/
structure User (Pixmap : Type) where
  userId : String
  name : String
  avatarUrl : QUrl
  avatar : Pixmap
  requestedSize : Int × Int
  avatarValid : Bool
  avatarOngoingRequest : Bool
  scaledAvatars : List Pixmap
  emitted : List UserSignal

namespace User

variable {Pixmap : Type}

/-- `User::name()`. -/
def getName (u : User Pixmap) : String :=
  u.name

/-- `User::processEvent(Event*)`. -/
def processEvent (event : Event) (u : User Pixmap) : User Pixmap :=
  match event with
  | .roomMember e =>
      let u :=
        if u.name ≠ e.displayName then
          let oldName := u.name
          { u with name := e.displayName, emitted := u.emitted ++ [UserSignal.nameChanged oldName] }
        else u
      let u :=
        if u.avatarUrl ≠ e.avatarUrl then
          { u with avatarUrl := e.avatarUrl, avatarValid := false }
        else u
      u
  | .other _ => u

end User

/-! ## Sample inputs -/

namespace Sample

/-- The two bytes of the text of an empty JSON object. -/
def emptyObjectText : QByteArray := [123, 125]

/-- A stand-in for `QJsonDocument::fromJson` on sample inputs: it accepts the
text of the empty object and reports an illegal value at offset 0 for every
other input. -/
def fromJson (data : QByteArray) : QJsonDocument × QJsonParseError :=
  if data = emptyObjectText then
    (QJsonDocument.ofObject [], { error := 0, errorString := "no error occurred", offset := 0 })
  else
    (QJsonDocument.null, { error := 5, errorString := "illegal value", offset := 0 })

/-- A reply that is still in flight. -/
def runningReply : QNetworkReply :=
  { error := NetworkError.NoError, errorString := "Unknown error", buffer := [], isRunning := true }

/-- A reply that completed without error and carries the empty object. -/
def okReply : QNetworkReply :=
  { error := NetworkError.NoError, errorString := "Unknown error", buffer := emptyObjectText,
    isRunning := false }

/-- A job of a class that overrides nothing, after `start()`. -/
def startedJob : BaseJob Unit :=
  BaseJob.start runningReply (BaseJob.create ())

/-- The virtual functions of a class that overrides nothing. -/
def plain : Virtuals Unit :=
  BaseJob.defaultVirtuals fromJson BaseJob.parseJson

/-- A subclass whose `checkReply` reports the code 1 for every reply. -/
def noteOnCheck : Virtuals Unit :=
  { checkReply := fun _ _ => { code := 1, message := "note" }
    parseReply := BaseJob.parseReply fromJson BaseJob.parseJson }

/-- A subclass whose `parseJson` reports the code 1 for every document. -/
def noteOnParse : Virtuals Unit :=
  BaseJob.defaultVirtuals fromJson (fun _ sub => ({ code := 1, message := "note" }, sub))

/-- A subclass that keeps a counter of the calls of its `parseReply` (which
always reports success) and whose `checkReply` reports the code 1 for every
reply. -/
def countingParse : Virtuals Nat :=
  { checkReply := fun _ _ => { code := 1, message := "note" }
    parseReply := fun _ n => (Status.ofCode StatusCode.Success, n + 1) }

/-- A reply that completed without error and whose body is no JSON text. -/
def garbledReply : QNetworkReply :=
  { error := NetworkError.NoError, errorString := "Unknown error", buffer := [1, 2, 3],
    isRunning := false }

/-- A stand-in for `eventsFromJson` on sample inputs: an event is its JSON
value. -/
def eventsFromJson (a : QJsonArray) : List QJsonValue := a

/-- A sync payload with the token "s1" and one joined room "!a:x" that has no
content. -/
def oneRoom : QJsonDocument :=
  QJsonDocument.ofObject
    [("next_batch", QJsonValue.string "s1"),
      ("rooms", QJsonValue.object [("join", QJsonValue.object [("!a:x", QJsonValue.object [])])])]

/-- The sync payload of the round-trip example: the joined room "!a:x" with a
timeline of two events, `limited` true and `prev_batch` "t1". -/
def roundTrip : QJsonDocument :=
  QJsonDocument.ofObject
    [("next_batch", QJsonValue.string "s2"),
      ("rooms",
        QJsonValue.object
          [("join",
            QJsonValue.object
              [("!a:x",
                QJsonValue.object
                  [("timeline",
                    QJsonValue.object
                      [("events",
                        QJsonValue.array
                          [QJsonValue.object [("event_id", QJsonValue.string "e1")],
                            QJsonValue.object [("event_id", QJsonValue.string "e2")]]),
                        ("limited", QJsonValue.bool true),
                        ("prev_batch", QJsonValue.string "t1")])])])])]

end Sample

/-! ## Lemmas on the lifecycle -/

namespace BaseJob

variable {σ : Type}

/-- The signals one run of `finishJob` emits. -/
theorem finishJob_emitted (emitResult : Bool) (j : BaseJob σ) :
    (finishJob emitResult j).emitted =
      j.emitted ++
        (if emitResult then
          [Signal.finished, Signal.result,
            if j.status.code = 0 then Signal.success else Signal.failure]
        else [Signal.finished]) := by
  unfold finishJob
  cases emitResult <;> cases hr : j.reply <;>
    by_cases hc : j.status.code = 0 <;> simp [error, hc] <;> split <;> simp [hc]

/-- A run of `finishJob` leaves the status as it was. -/
theorem finishJob_status (emitResult : Bool) (j : BaseJob σ) :
    (finishJob emitResult j).status = j.status := by
  unfold finishJob
  cases emitResult <;> cases hr : j.reply <;>
    by_cases hc : j.status.code = 0 <;> simp [error, hc] <;> split <;> simp [hc]

/-- A run of `finishJob` leaves the data members of the subclass as they were. -/
theorem finishJob_sub (emitResult : Bool) (j : BaseJob σ) :
    (finishJob emitResult j).sub = j.sub := by
  unfold finishJob
  cases emitResult <;> cases hr : j.reply <;>
    by_cases hc : j.status.code = 0 <;> simp [error, hc] <;> split <;> simp [hc]

/-- A run of `finishJob` leaves the timer stopped and `deleteLater()` called. -/
theorem finishJob_timer (emitResult : Bool) (j : BaseJob σ) :
    (finishJob emitResult j).timer.active = false ∧
      (finishJob emitResult j).deleteLaterCalled = true := by
  unfold finishJob
  cases emitResult <;> cases hr : j.reply <;>
    by_cases hc : j.status.code = 0 <;> simp [error, hc, QTimer.stop] <;> split <;>
      simp [hc]

/-- The slot `gotReply` as one run of `finishJob`: on a status of `checkReply`
that is not good the reply is not parsed, otherwise the status is the one
`parseReply` returns for the bytes of the reply. -/
theorem gotReply_eq (v : Virtuals σ) (r : QNetworkReply) (j : BaseJob σ) :
    gotReply v r j =
      finishJob true
        (if (v.checkReply j.sub r).good then
          { j with
            status := (v.parseReply r.buffer j.sub).1
            reply := some { r with buffer := [] }
            sub := (v.parseReply r.buffer j.sub).2 }
        else { j with status := v.checkReply j.sub r, reply := some r }) := by
  unfold gotReply
  by_cases hg : (v.checkReply j.sub r).good = true <;>
    simp [setStatus, hg, QNetworkReply.readAll]

/-- The signals one run of `gotReply` emits. -/
theorem gotReply_emitted (v : Virtuals σ) (r : QNetworkReply) (j : BaseJob σ) :
    (gotReply v r j).emitted =
      j.emitted ++
        [Signal.finished, Signal.result,
          if (gotReply v r j).status.code = 0 then Signal.success else Signal.failure] := by
  rw [gotReply_eq, finishJob_emitted, finishJob_status]
  by_cases hg : (v.checkReply j.sub r).good = true <;> simp [hg]

/-- The signals one run of `timeout` emits. -/
theorem timeout_emitted (j : BaseJob σ) :
    (timeout j).emitted = j.emitted ++ [Signal.finished, Signal.result, Signal.failure] := by
  unfold timeout
  rw [finishJob_emitted]
  simp [setStatusCM, setStatus, StatusCode.TimeoutError]

/-- The signals one run of `abandon` emits. -/
theorem abandon_emitted (j : BaseJob σ) :
    (abandon j).emitted = j.emitted ++ [Signal.finished] := by
  unfold abandon
  rw [finishJob_emitted]
  simp

/-- A run of `finishJob` leaves the reply as it was. -/
theorem finishJob_reply (emitResult : Bool) (j : BaseJob σ) :
    (finishJob emitResult j).reply = j.reply := by
  unfold finishJob
  cases emitResult <;> cases hr : j.reply <;>
    by_cases hc : j.status.code = 0 <;> simp [error, hc] <;> split <;> simp [hc]

/-- A run of `finishJob` on a job whose reply is still running disconnects the
reply from the job. -/
theorem finishJob_disconnects (emitResult : Bool) (j : BaseJob σ) (r : QNetworkReply)
    (hr : j.reply = some r) (hrun : r.isRunning = true) :
    (finishJob emitResult j).replyConnected = false := by
  unfold finishJob
  cases emitResult <;> by_cases hc : j.status.code = 0 <;> simp [error, hc, hr, hrun]

/-- A run of `finishJob` does not connect a reply that is not connected. -/
theorem finishJob_stays_disconnected (emitResult : Bool) (j : BaseJob σ)
    (h : j.replyConnected = false) :
    (finishJob emitResult j).replyConnected = false := by
  unfold finishJob
  cases emitResult <;> cases hr : j.reply <;>
    by_cases hc : j.status.code = 0 <;> simp [error, hc, h]

/-- The first terminal event of a job started on a running reply reaches the job
and emits `finished` once; afterwards the timer is stopped and no signal of the
reply reaches the job. -/
theorem handle_first (v : Virtuals σ) (r : QNetworkReply) (j : BaseJob σ) (e : Event)
    (hrun : r.isRunning = true) :
    (handle v (start r j) e).emitted.count Signal.finished =
        j.emitted.count Signal.finished + 1 ∧
      (handle v (start r j) e).timer.active = false ∧
      (handle v (start r j) e).replyConnected = false := by
  cases e with
  | gotReply err str body =>
      have hc : (start r j).replyConnected = true := rfl
      simp only [handle, hc, if_true]
      refine ⟨?_, ?_, ?_⟩
      · rw [gotReply_emitted]
        have he : (start r j).emitted = j.emitted := rfl
        rw [he]
        split <;> simp [List.count_cons]
      · exact (finishJob_timer _ _).1
      · trivial
  | timeout =>
      have ht : (start r j).timer.active = true := rfl
      simp only [handle, ht, if_true]
      refine ⟨?_, (finishJob_timer _ _).1, ?_⟩
      · rw [timeout_emitted]
        have he : (start r j).emitted = j.emitted := rfl
        rw [he]
        simp [List.count_cons]
      · exact finishJob_disconnects _ _ r rfl hrun
  | abandon =>
      simp only [handle]
      refine ⟨?_, (finishJob_timer _ _).1, ?_⟩
      · rw [abandon_emitted]
        have he : (start r j).emitted = j.emitted := rfl
        rw [he]
        simp
      · exact finishJob_disconnects _ _ r rfl hrun

/-- On a job whose timer is stopped and whose reply no longer reaches it, a
completion of the transport and a firing of the timer change nothing, and
`abandon()` emits `finished` once more; the timer stays stopped and the reply
stays cut off. -/
theorem handle_later (v : Virtuals σ) (j : BaseJob σ) (e : Event)
    (ht : j.timer.active = false) (hc : j.replyConnected = false) :
    (handle v j e).timer.active = false ∧
      (handle v j e).replyConnected = false ∧
      (handle v j e).emitted.count Signal.finished =
        j.emitted.count Signal.finished + [e].count Event.abandon := by
  cases e with
  | gotReply err str body => simp [handle, hc, ht]
  | timeout => simp [handle, hc, ht]
  | abandon =>
      simp only [handle]
      refine ⟨(finishJob_timer _ _).1, finishJob_stays_disconnected _ _ hc, ?_⟩
      rw [abandon_emitted]
      simp

/-- Any number of later terminal events: only the calls of `abandon()` among them
emit `finished`. -/
theorem deliver_later (v : Virtuals σ) (j : BaseJob σ) (es : List Event)
    (ht : j.timer.active = false) (hc : j.replyConnected = false) :
    (deliver v j es).timer.active = false ∧
      (deliver v j es).replyConnected = false ∧
      (deliver v j es).emitted.count Signal.finished =
        j.emitted.count Signal.finished + es.count Event.abandon := by
  induction es generalizing j with
  | nil => simp [deliver, ht, hc]
  | cons e es ih =>
      have h1 := handle_later v j e ht hc
      have h2 := ih (handle v j e) h1.1 h1.2.1
      simp only [deliver, List.foldl_cons] at h2 ⊢
      refine ⟨h2.1, h2.2.1, ?_⟩
      rw [h2.2.2, h1.2.2, List.count_cons (a := Event.abandon) (b := e)]
      simp only [List.count_cons, List.count_nil]
      omega

/-- Once the timer is stopped, it stays stopped through every terminal event. -/
theorem handle_timer_stays_stopped (v : Virtuals σ) (j : BaseJob σ) (e : Event)
    (ht : j.timer.active = false) : (handle v j e).timer.active = false := by
  cases e with
  | gotReply err str body =>
      by_cases hc : j.replyConnected = true
      · simp only [handle, hc, if_true]
        exact (finishJob_timer _ _).1
      · simp [handle, hc, ht]
  | timeout => simp [handle, ht]
  | abandon => exact (finishJob_timer _ _).1

/-- Once the timer is stopped, it stays stopped through every sequence of
terminal events. -/
theorem deliver_timer_stays_stopped (v : Virtuals σ) (j : BaseJob σ) (es : List Event)
    (ht : j.timer.active = false) : (deliver v j es).timer.active = false := by
  induction es generalizing j with
  | nil => simpa [deliver] using ht
  | cons e es ih =>
      have h := ih (handle v j e) (handle_timer_stays_stopped v j e ht)
      simpa [deliver] using h

/-- The first terminal event after `start()` reaches the job, whatever the reply,
and leaves the timer stopped. -/
theorem handle_start_timer (v : Virtuals σ) (r : QNetworkReply) (j : BaseJob σ) (e : Event) :
    (handle v (start r j) e).timer.active = false := by
  cases e with
  | gotReply err str body =>
      have hc : (start r j).replyConnected = true := rfl
      simp only [handle, hc, if_true]
      exact (finishJob_timer _ _).1
  | timeout =>
      have ht : (start r j).timer.active = true := rfl
      simp only [handle, ht, if_true]
      exact (finishJob_timer _ _).1
  | abandon => exact (finishJob_timer _ _).1

end BaseJob

/-! ## The claims on the job lifecycle -/

namespace BaseJob

variable {σ : Type}

/-- C1, as stated, fails: on a started job two calls of `abandon()` emit
`finished` twice, and `abandon()` after the transport completed emits
`finished` a second time; the count of `finished` is 2, not 1. -/
theorem finished_emitted_twice :
    (deliver Sample.plain Sample.startedJob [Event.abandon, Event.abandon]).emitted =
        [Signal.finished, Signal.finished] ∧
      (deliver Sample.plain Sample.startedJob
          [Event.gotReply NetworkError.NoError "Unknown error" Sample.emptyObjectText,
            Event.abandon]).emitted =
        [Signal.finished, Signal.result, Signal.success, Signal.finished] ∧
      (deliver Sample.plain Sample.startedJob [Event.abandon, Event.abandon]).emitted.count
          Signal.finished ≠ 1 := by
  refine ⟨?_, ?_, ?_⟩ <;> decide

/-- C1 (amended): for a job started on a reply that is still running and every
sequence of terminal events after `start()`: the first event emits `finished`
exactly once; every later completion of the transport and every later firing of
the timer is a no-op, which leaves the job as it is and emits nothing; every
later `abandon()` emits exactly `finished` once more.  So `finished` is emitted
once plus the number of calls of `abandon()` that follow the first terminal
event. -/
theorem deliver_count_finished (v : Virtuals σ) (r : QNetworkReply) (j : BaseJob σ)
    (e : Event) (rest : List Event) (hrun : r.isRunning = true) :
    (deliver v (start r j) [e]).emitted.count Signal.finished =
        j.emitted.count Signal.finished + 1 ∧
      (deliver v (start r j) (e :: rest)).emitted.count Signal.finished =
        j.emitted.count Signal.finished + 1 + rest.count Event.abandon ∧
      (∀ (err : NetworkError) (str : String) (body : QByteArray),
        deliver v (start r j) (e :: rest ++ [Event.gotReply err str body]) =
          deliver v (start r j) (e :: rest)) ∧
      deliver v (start r j) (e :: rest ++ [Event.timeout]) =
        deliver v (start r j) (e :: rest) ∧
      (deliver v (start r j) (e :: rest ++ [Event.abandon])).emitted =
        (deliver v (start r j) (e :: rest)).emitted ++ [Signal.finished] := by
  have hfirst := handle_first v r j e hrun
  have hlater := deliver_later v (handle v (start r j) e) rest hfirst.2.1 hfirst.2.2
  have hcons : deliver v (start r j) (e :: rest) =
      deliver v (handle v (start r j) e) rest := rfl
  have hsnoc : ∀ e2 : Event, deliver v (start r j) (e :: rest ++ [e2]) =
      handle v (deliver v (start r j) (e :: rest)) e2 := by
    intro e2
    simp [deliver, List.foldl_append]
  rw [← hcons] at hlater
  refine ⟨?_, ?_, ?_, ?_, ?_⟩
  · simpa [deliver] using hfirst.1
  · rw [hlater.2.2, hfirst.1]
  · intro err str body
    rw [hsnoc]
    simp [handle, hlater.2.1]
  · rw [hsnoc]
    simp [handle, hlater.1]
  · rw [hsnoc]
    simp only [handle]
    exact abandon_emitted _

/-- C1 (amended) at a sample input: `abandon()` first, then a completion of the
transport, a firing of the timer and a second `abandon()`: `finished` is emitted
twice, once by each `abandon()`. -/
theorem deliver_count_finished_witness :
    (deliver Sample.plain Sample.startedJob
        [Event.abandon,
          Event.gotReply NetworkError.NoError "Unknown error" Sample.emptyObjectText,
          Event.timeout, Event.abandon]).emitted.count Signal.finished =
      0 + 1 +
        [Event.gotReply NetworkError.NoError "Unknown error" Sample.emptyObjectText,
          Event.timeout, Event.abandon].count Event.abandon :=
  (deliver_count_finished Sample.plain Sample.runningReply (create ()) Event.abandon
    [Event.gotReply NetworkError.NoError "Unknown error" Sample.emptyObjectText,
      Event.timeout, Event.abandon] rfl).2.1

/-- C2: `gotReply` and `timeout` emit exactly `finished`, `result` and then one
of `success` and `failure`; `abandon()` emits exactly `finished`, whatever the
state of the job, also right after `gotReply` has run. -/
theorem terminal_signal_sequences (v : Virtuals σ) (r : QNetworkReply) (j : BaseJob σ) :
    ((gotReply v r j).emitted = j.emitted ++ [Signal.finished, Signal.result, Signal.success] ∨
        (gotReply v r j).emitted =
          j.emitted ++ [Signal.finished, Signal.result, Signal.failure]) ∧
      ((timeout j).emitted = j.emitted ++ [Signal.finished, Signal.result, Signal.success] ∨
        (timeout j).emitted = j.emitted ++ [Signal.finished, Signal.result, Signal.failure]) ∧
      (abandon j).emitted = j.emitted ++ [Signal.finished] ∧
      (abandon (gotReply v r j)).emitted = (gotReply v r j).emitted ++ [Signal.finished] := by
  refine ⟨?_, Or.inr (timeout_emitted j), abandon_emitted j, abandon_emitted _⟩
  rw [gotReply_emitted]
  by_cases hc : (gotReply v r j).status.code = 0 <;> simp [hc]

/-- C3, as stated, fails: a job whose `parseJson` returns the code 1 ends with a
status for which `good()` holds, and `failure` is emitted, not `success`. -/
theorem good_status_emits_failure :
    (gotReply Sample.noteOnParse Sample.okReply Sample.startedJob).status.code = 1 ∧
      (gotReply Sample.noteOnParse Sample.okReply Sample.startedJob).status.good = true ∧
      (gotReply Sample.noteOnParse Sample.okReply Sample.startedJob).emitted =
        [Signal.finished, Signal.result, Signal.failure] := by
  refine ⟨?_, ?_, ?_⟩ <;> decide

/-- C3 (amended): at a terminal transition that is not an abandon, `success` is
emitted if and only if the status code is 0 and `failure` if and only if it is
not 0; for the code 0 and for every code from 100 on this is the same as
`good()` holding. -/
theorem success_iff_code_zero (j : BaseJob σ) :
    ((finishJob true j).emitted =
          j.emitted ++ [Signal.finished, Signal.result, Signal.success] ↔
        j.status.code = 0) ∧
      ((finishJob true j).emitted =
          j.emitted ++ [Signal.finished, Signal.result, Signal.failure] ↔
        j.status.code ≠ 0) ∧
      (j.status.code = 0 ∨ 100 ≤ j.status.code →
        (j.status.good = true ↔ j.status.code = 0)) := by
  rw [finishJob_emitted]
  refine ⟨?_, ?_, ?_⟩
  · by_cases hc : j.status.code = 0 <;> simp [hc]
  · by_cases hc : j.status.code = 0 <;> simp [hc]
  · intro h
    simp only [Status.good, StatusCode.ErrorLevel, decide_eq_true_eq]
    omega

/-- C4: `checkReply` maps no transport error to the code 0, the three access
errors to `ContentAccessError` (103) with the error string of the reply, and
every other transport error to `NetworkError` (100) with that string;
`CallConfigBase::checkReply` returns the same status as `BaseJob::checkReply`. -/
theorem checkReply_classification (r : QNetworkReply) :
    (r.error = NetworkError.NoError → checkReply r = { code := 0, message := "" }) ∧
      (r.error = NetworkError.AuthenticationRequiredError ∨
          r.error = NetworkError.ContentAccessDenied ∨
          r.error = NetworkError.ContentOperationNotPermittedError →
        checkReply r = { code := 103, message := r.errorString }) ∧
      (r.error ≠ NetworkError.NoError ∧
          r.error ≠ NetworkError.AuthenticationRequiredError ∧
          r.error ≠ NetworkError.ContentAccessDenied ∧
          r.error ≠ NetworkError.ContentOperationNotPermittedError →
        checkReply r = { code := 100, message := r.errorString }) ∧
      ServerApi.CallConfigBase.checkReply r = checkReply r := by
  obtain ⟨e, str, buf, run⟩ := r
  cases e <;>
    simp [checkReply, ServerApi.CallConfigBase.checkReply, Status.ofCode, StatusCode.NoError,
      StatusCode.ContentAccessError, StatusCode.NetworkError, ServerApi.NoError,
      ServerApi.ContentAccessError, ServerApi.NetworkError]

/-- When the status `checkReply` returns is not good, `gotReply` ends with that
status and leaves the data members of the subclass alone, whatever `parseReply`
is. -/
theorem gotReply_of_not_good (v : Virtuals σ) (r : QNetworkReply) (j : BaseJob σ)
    (h : (v.checkReply j.sub r).good = false) :
    (gotReply v r j).status = v.checkReply j.sub r ∧ (gotReply v r j).sub = j.sub := by
  rw [gotReply_eq, finishJob_status, finishJob_sub]
  simp [h]

/-- When the status `checkReply` returns is good, `gotReply` ends with the
status and the subclass data `parseReply` returns for the bytes of the reply. -/
theorem gotReply_of_good (v : Virtuals σ) (r : QNetworkReply) (j : BaseJob σ)
    (h : (v.checkReply j.sub r).good = true) :
    (gotReply v r j).status = (v.parseReply r.buffer j.sub).1 ∧
      (gotReply v r j).sub = (v.parseReply r.buffer j.sub).2 := by
  rw [gotReply_eq, finishJob_status, finishJob_sub]
  simp [h]

/-- C5, evaluated on a failing input: the overridden `checkReply` returns the
code 1, which is not `NoError`, and `gotReply` still calls `parseReply` (its call
counter goes from 0 to 1) and ends with the status of `parseReply`, code 0, not
with the status `checkReply` returned. -/
theorem checkReply_note_still_parsed :
    (Sample.countingParse.checkReply 0 Sample.okReply).code = 1 ∧
      (gotReply Sample.countingParse Sample.okReply
          (start Sample.runningReply (create 0))).sub = 1 ∧
      (gotReply Sample.countingParse Sample.okReply
          (start Sample.runningReply (create 0))).status.code = 0 ∧
      (gotReply Sample.countingParse Sample.okReply
          (start Sample.runningReply (create 0))).emitted =
        [Signal.finished, Signal.result, Signal.success] := by
  refine ⟨?_, ?_, ?_, ?_⟩ <;> decide

/-- C6: when the reply carries no transport error and its body is not valid
JSON, a job with the default `checkReply` and `parseReply` ends with the code
`JsonParseError` (101) and the parser's error string; the status is not good and
not `Success`; `parseJson` is not called (the data members of the subclass are
untouched and the outcome is the same for every other `parseJson`); the signals
emitted are `finished`, `result`, `failure`. -/
theorem malformed_body_json_parse_error
    (fromJson : QByteArray → QJsonDocument × QJsonParseError)
    (parseJson : QJsonDocument → σ → Status × σ) (r : QNetworkReply) (j : BaseJob σ)
    (hok : r.error = NetworkError.NoError)
    (hbad : (fromJson r.buffer).2.error ≠ QJsonParseError.NoError) :
    (gotReply (defaultVirtuals fromJson parseJson) r j).status =
        { code := 101, message := (fromJson r.buffer).2.errorString } ∧
      (gotReply (defaultVirtuals fromJson parseJson) r j).status.code =
        StatusCode.JsonParseError ∧
      (gotReply (defaultVirtuals fromJson parseJson) r j).status.good = false ∧
      (gotReply (defaultVirtuals fromJson parseJson) r j).status.code ≠ StatusCode.Success ∧
      (gotReply (defaultVirtuals fromJson parseJson) r j).sub = j.sub ∧
      (∀ parseJson2 : QJsonDocument → σ → Status × σ,
        gotReply (defaultVirtuals fromJson parseJson2) r j =
          gotReply (defaultVirtuals fromJson parseJson) r j) ∧
      (gotReply (defaultVirtuals fromJson parseJson) r j).emitted =
        j.emitted ++ [Signal.finished, Signal.result, Signal.failure] := by
  have hcheck : ∀ pj : QJsonDocument → σ → Status × σ,
      ((defaultVirtuals fromJson pj).checkReply j.sub r).good = true := by
    intro pj
    simp [defaultVirtuals, checkReply, hok, Status.good, Status.ofCode, StatusCode.NoError,
      StatusCode.ErrorLevel]
  have hparse : ∀ pj : QJsonDocument → σ → Status × σ,
      (defaultVirtuals fromJson pj).parseReply r.buffer j.sub =
        ({ code := 101, message := (fromJson r.buffer).2.errorString }, j.sub) := by
    intro pj
    simp [defaultVirtuals, parseReply, hbad, StatusCode.JsonParseError]
  have hst := (gotReply_of_good (defaultVirtuals fromJson parseJson) r j (hcheck parseJson))
  rw [hparse] at hst
  simp only at hst
  refine ⟨hst.1, ?_, ?_, ?_, hst.2, ?_, ?_⟩
  · rw [hst.1]; rfl
  · rw [hst.1]; simp [Status.good, StatusCode.ErrorLevel]
  · rw [hst.1]; simp [StatusCode.Success]
  · intro pj2
    rw [gotReply_eq, gotReply_eq, hcheck, hcheck, hparse, hparse]
    simp
  · rw [gotReply_emitted, hst.1]
    simp

/-- C6 at a sample input: a reply without transport error whose body is the
three bytes 1, 2, 3. -/
theorem malformed_body_json_parse_error_witness :
    (gotReply Sample.plain Sample.garbledReply Sample.startedJob).status =
        { code := 101, message := "illegal value" } ∧
      (gotReply Sample.plain Sample.garbledReply Sample.startedJob).emitted =
        [Signal.finished, Signal.result, Signal.failure] :=
  have h := malformed_body_json_parse_error Sample.fromJson parseJson Sample.garbledReply
    Sample.startedJob rfl (by decide)
  ⟨h.1, h.2.2.2.2.2.2⟩

/-- C7: `timeout()` sets the status to the code `TimeoutError` (102) with the
message "The job has timed out", whatever the status was; that status is not
good; the signals emitted are `finished`, `result`, `failure`, in this order. -/
theorem timeout_reports_failure (j : BaseJob σ) :
    (timeout j).status = { code := 102, message := "The job has timed out" } ∧
      (timeout j).status.code = StatusCode.TimeoutError ∧
      (timeout j).status.good = false ∧
      (timeout j).emitted = j.emitted ++ [Signal.finished, Signal.result, Signal.failure] := by
  have hs : (timeout j).status = { code := 102, message := "The job has timed out" } := by
    unfold timeout
    rw [finishJob_status]
    rfl
  refine ⟨hs, ?_, ?_, timeout_emitted j⟩
  · rw [hs]; rfl
  · rw [hs]; simp [Status.good, StatusCode.ErrorLevel]

end BaseJob

/-! ## Lemmas on the sync decoder -/

namespace SyncJob

variable {Ev : Type}

/-- The inner loop of `parseJson` appends one element per key, in the order of
the keys. -/
theorem push_back_loop (f : String → SyncRoomData Ev) (keys : List String) (d : Private Ev) :
    keys.foldl (fun d rkey => { d with roomData := d.roomData ++ [f rkey] }) d =
      { d with roomData := d.roomData ++ keys.map f } := by
  induction keys generalizing d with
  | nil => simp
  | cons k ks ih => simp [ih]

/-- Closed form of `parseJson`: the token is read from the document and the
rooms of the three buckets are appended to the rooms the job already holds. -/
theorem parseJson_eq (eventsFromJson : QJsonArray → List Ev) (data : QJsonDocument)
    (d : Private Ev) :
    parseJson eventsFromJson data d =
      (Status.ofCode StatusCode.Success,
        { nextBatch := (data.object.value "next_batch").toString
          roomData :=
            d.roomData ++
              (bucketRooms eventsFromJson (data.object.value "rooms").toObject
                  ("join", JoinState.Join) ++
                bucketRooms eventsFromJson (data.object.value "rooms").toObject
                  ("invite", JoinState.Invite) ++
                bucketRooms eventsFromJson (data.object.value "rooms").toObject
                  ("leave", JoinState.Leave)) }) := by
  simp [parseJson, roomStates, push_back_loop, bucketRooms, List.append_assoc]

/-- In an object whose keys are pairwise distinct, `value` at the key of a
member is the value of that member. -/
theorem value_of_nodup_keys {β : Type} (g : String → QJsonValue → β) (o : QJsonObject)
    (h : o.keys.Nodup) :
    o.keys.map (fun k => g k (o.value k)) = o.map (fun e => g e.1 e.2) := by
  induction o with
  | nil => rfl
  | cons e t ih =>
      obtain ⟨k, v⟩ := e
      simp only [QJsonObject.keys, List.map_cons, List.nodup_cons, List.mem_map, not_exists,
        not_and] at h ih ⊢
      have hhead : QJsonObject.value ((k, v) :: t) k = v := by
        simp [QJsonObject.value, List.lookup]
      have htail : ∀ e ∈ t, QJsonObject.value ((k, v) :: t) e.1 = QJsonObject.value t e.1 := by
        intro e he
        have hne : ¬ e.1 = k := h.1 e he
        have hb : (e.1 == k) = false := by simpa using hne
        simp [QJsonObject.value, List.lookup, hb]
      rw [hhead]
      congr 1
      rw [← ih h.2, List.map_map, List.map_map]
      apply List.map_congr_left
      intro e he
      simp [htail e he]

end SyncJob

/-! ## The claims on the sync decoder -/

namespace SyncJob

variable {Ev : Type}

/-- C8, as stated, fails: decoding the payload with the one joined room "!a:x"
twice on the same job leaves two rooms in `roomData`, while decoding it once
leaves one. -/
theorem decoding_twice_doubles_rooms :
    ((parseJson Sample.eventsFromJson Sample.oneRoom
          (parseJson Sample.eventsFromJson Sample.oneRoom Private.create).2).2.roomData.map
        (fun room => room.roomId)) = ["!a:x", "!a:x"] ∧
      ((parseJson Sample.eventsFromJson Sample.oneRoom Private.create).2.roomData.map
        (fun room => room.roomId)) = ["!a:x"] ∧
      (parseJson Sample.eventsFromJson Sample.oneRoom
          (parseJson Sample.eventsFromJson Sample.oneRoom Private.create).2).2.roomData.length ≠
        (parseJson Sample.eventsFromJson Sample.oneRoom Private.create).2.roomData.length := by
  refine ⟨?_, ?_, ?_⟩ <;> decide

/-- C8 (amended): a second `parseJson` on the same job with the same document
returns the same status and leaves the same `nextBatch` as the first, and
appends the rooms of the payload once more: `roomData` is then the sequence
after the first call followed by the sequence a fresh job gets.  In general the
token does not depend on the state before the call, and the rooms are the rooms
held before followed by those a fresh job gets. -/
theorem parseJson_twice (eventsFromJson : QJsonArray → List Ev) (data : QJsonDocument)
    (d : Private Ev) :
    (parseJson eventsFromJson data (parseJson eventsFromJson data d).2).1 =
        (parseJson eventsFromJson data d).1 ∧
      (parseJson eventsFromJson data (parseJson eventsFromJson data d).2).2.nextBatch =
        (parseJson eventsFromJson data d).2.nextBatch ∧
      (parseJson eventsFromJson data (parseJson eventsFromJson data d).2).2.roomData =
        (parseJson eventsFromJson data d).2.roomData ++
          (parseJson eventsFromJson data Private.create).2.roomData ∧
      (parseJson eventsFromJson data d).2.nextBatch =
        (parseJson eventsFromJson data Private.create).2.nextBatch ∧
      (parseJson eventsFromJson data d).2.roomData =
        d.roomData ++ (parseJson eventsFromJson data Private.create).2.roomData := by
  have hfresh := parseJson_eq eventsFromJson data Private.create
  have hfirst := parseJson_eq eventsFromJson data d
  have hsecond := parseJson_eq eventsFromJson data (parseJson eventsFromJson data d).2
  rw [hsecond, hfirst, hfresh]
  refine ⟨rfl, rfl, ?_, rfl, ?_⟩ <;> simp [Private.create]

/-- C9: on a fresh job `parseJson` yields one `SyncRoomData` per key of
`rooms.join`, then one per key of `rooms.invite`, then one per key of
`rooms.leave`, each bucket in the order of its keys, built from the key, the
bucket's join state and the member under that key; the room ids and join states
are those of the keys and buckets; the number of results is the sum of the sizes
of the three buckets; no result comes from any other key of `rooms`; and for a
bucket with pairwise distinct keys the results are one per member. -/
theorem parseJson_rooms (eventsFromJson : QJsonArray → List Ev) (data : QJsonDocument) :
    (parseJson eventsFromJson data Private.create).2.roomData =
        (((data.object.value "rooms").toObject.value "join").toObject.keys.map
            (fun k =>
              SyncRoomData.create eventsFromJson k JoinState.Join
                ((((data.object.value "rooms").toObject.value "join").toObject.value
                  k).toObject))) ++
          (((data.object.value "rooms").toObject.value "invite").toObject.keys.map
            (fun k =>
              SyncRoomData.create eventsFromJson k JoinState.Invite
                ((((data.object.value "rooms").toObject.value "invite").toObject.value
                  k).toObject))) ++
          (((data.object.value "rooms").toObject.value "leave").toObject.keys.map
            (fun k =>
              SyncRoomData.create eventsFromJson k JoinState.Leave
                ((((data.object.value "rooms").toObject.value "leave").toObject.value
                  k).toObject))) ∧
      (parseJson eventsFromJson data Private.create).2.roomData.map
          (fun room => (room.roomId, room.joinState)) =
        ((data.object.value "rooms").toObject.value "join").toObject.keys.map
            (fun k => (k, JoinState.Join)) ++
          ((data.object.value "rooms").toObject.value "invite").toObject.keys.map
            (fun k => (k, JoinState.Invite)) ++
          ((data.object.value "rooms").toObject.value "leave").toObject.keys.map
            (fun k => (k, JoinState.Leave)) ∧
      (parseJson eventsFromJson data Private.create).2.roomData.length =
        ((data.object.value "rooms").toObject.value "join").toObject.length +
          ((data.object.value "rooms").toObject.value "invite").toObject.length +
          ((data.object.value "rooms").toObject.value "leave").toObject.length ∧
      (∀ data2 : QJsonDocument,
        (data2.object.value "rooms").toObject.value "join" =
            (data.object.value "rooms").toObject.value "join" →
        (data2.object.value "rooms").toObject.value "invite" =
            (data.object.value "rooms").toObject.value "invite" →
        (data2.object.value "rooms").toObject.value "leave" =
            (data.object.value "rooms").toObject.value "leave" →
        (parseJson eventsFromJson data2 Private.create).2.roomData =
          (parseJson eventsFromJson data Private.create).2.roomData) ∧
      (((data.object.value "rooms").toObject.value "join").toObject.keys.Nodup →
        ((data.object.value "rooms").toObject.value "invite").toObject.keys.Nodup →
        ((data.object.value "rooms").toObject.value "leave").toObject.keys.Nodup →
        (parseJson eventsFromJson data Private.create).2.roomData =
          ((data.object.value "rooms").toObject.value "join").toObject.map
              (fun e => SyncRoomData.create eventsFromJson e.1 JoinState.Join e.2.toObject) ++
            ((data.object.value "rooms").toObject.value "invite").toObject.map
              (fun e => SyncRoomData.create eventsFromJson e.1 JoinState.Invite e.2.toObject) ++
            ((data.object.value "rooms").toObject.value "leave").toObject.map
              (fun e => SyncRoomData.create eventsFromJson e.1 JoinState.Leave e.2.toObject)) := by
  refine ⟨?_, ?_, ?_, ?_, ?_⟩
  · simp [parseJson_eq, Private.create, bucketRooms]
  · simp [parseJson_eq, Private.create, bucketRooms, SyncRoomData.create, Function.comp_def]
  · simp [parseJson_eq, Private.create, bucketRooms, QJsonObject.keys]
    omega
  · intro data2 hj hi hl
    simp [parseJson_eq, Private.create, bucketRooms, hj, hi, hl]
  · intro hj hi hl
    rw [parseJson_eq]
    simp only [Private.create, List.nil_append, bucketRooms]
    rw [value_of_nodup_keys
        (fun k v => SyncRoomData.create eventsFromJson k JoinState.Join v.toObject) _ hj,
      value_of_nodup_keys
        (fun k v => SyncRoomData.create eventsFromJson k JoinState.Invite v.toObject) _ hi,
      value_of_nodup_keys
        (fun k v => SyncRoomData.create eventsFromJson k JoinState.Leave v.toObject) _ hl]

end SyncJob

/-- C10: the event lists a `SyncRoomData` holds after construction.  With
`Invite`, `inviteState` holds the events of `invite_state.events` and the other
four lists are empty; with `Join`, `state`, `timeline`, `ephemeral` and
`accountData` hold the events of the `events` arrays of `state`, `timeline`,
`ephemeral` and `account_data`, and `inviteState` is empty; with `Leave`, `state`
and `timeline` are filled likewise and the other three are empty; with any other
join state all five lists are empty. -/
theorem SyncRoomData.create_event_lists {Ev : Type} (eventsFromJson : QJsonArray → List Ev)
    (roomId : String) (room : QJsonObject) :
    ((SyncRoomData.create eventsFromJson roomId JoinState.Invite room).inviteState.events =
          eventsFromJson ((room.value "invite_state").toObject.value "events").toArray ∧
        (SyncRoomData.create eventsFromJson roomId JoinState.Invite room).state.events = [] ∧
        (SyncRoomData.create eventsFromJson roomId JoinState.Invite room).timeline.events = [] ∧
        (SyncRoomData.create eventsFromJson roomId JoinState.Invite room).ephemeral.events = [] ∧
        (SyncRoomData.create eventsFromJson roomId JoinState.Invite room).accountData.events =
          []) ∧
      ((SyncRoomData.create eventsFromJson roomId JoinState.Join room).state.events =
          eventsFromJson ((room.value "state").toObject.value "events").toArray ∧
        (SyncRoomData.create eventsFromJson roomId JoinState.Join room).timeline.events =
          eventsFromJson ((room.value "timeline").toObject.value "events").toArray ∧
        (SyncRoomData.create eventsFromJson roomId JoinState.Join room).ephemeral.events =
          eventsFromJson ((room.value "ephemeral").toObject.value "events").toArray ∧
        (SyncRoomData.create eventsFromJson roomId JoinState.Join room).accountData.events =
          eventsFromJson ((room.value "account_data").toObject.value "events").toArray ∧
        (SyncRoomData.create eventsFromJson roomId JoinState.Join room).inviteState.events =
          []) ∧
      ((SyncRoomData.create eventsFromJson roomId JoinState.Leave room).state.events =
          eventsFromJson ((room.value "state").toObject.value "events").toArray ∧
        (SyncRoomData.create eventsFromJson roomId JoinState.Leave room).timeline.events =
          eventsFromJson ((room.value "timeline").toObject.value "events").toArray ∧
        (SyncRoomData.create eventsFromJson roomId JoinState.Leave room).ephemeral.events = [] ∧
        (SyncRoomData.create eventsFromJson roomId JoinState.Leave room).accountData.events =
          [] ∧
        (SyncRoomData.create eventsFromJson roomId JoinState.Leave room).inviteState.events =
          []) ∧
      (∀ raw : Int,
        (SyncRoomData.create eventsFromJson roomId (JoinState.other raw) room).state.events =
            [] ∧
          (SyncRoomData.create eventsFromJson roomId (JoinState.other raw) room).timeline.events =
            [] ∧
          (SyncRoomData.create eventsFromJson roomId (JoinState.other raw) room).ephemeral.events =
            [] ∧
          (SyncRoomData.create eventsFromJson roomId
              (JoinState.other raw) room).accountData.events = [] ∧
          (SyncRoomData.create eventsFromJson roomId
              (JoinState.other raw) room).inviteState.events = []) := by
  simp [SyncRoomData.create, EventList.fromJson, EventList.create]

/-! ## Further lemmas on JSON objects -/

/-- An object has no value under a name that is none of its keys. -/
theorem QJsonObject.value_of_not_mem_keys (o : QJsonObject) (key : String)
    (h : key ∉ o.keys) : o.value key = QJsonValue.undefined := by
  have hnone : o.lookup key = none := by
    rw [List.lookup_eq_none_iff]
    intro e he
    have hne : key ≠ e.1 := by
      intro hk
      apply h
      simp only [QJsonObject.keys, List.mem_map]
      exact ⟨e, he, hk.symm⟩
    simpa using hne
  simp [QJsonObject.value, hnone]

/-- A key under which an object has an object value yields one of the rooms of
the bucket. -/
theorem SyncJob.mem_bucketRooms {Ev : Type} (eventsFromJson : QJsonArray → List Ev)
    (rooms : QJsonObject) (key : String) (st : JoinState) (k : String)
    (hk : k ∈ ((rooms.value key).toObject).keys) :
    SyncRoomData.create eventsFromJson k st
        (((rooms.value key).toObject).value k).toObject ∈
      SyncJob.bucketRooms eventsFromJson rooms (key, st) := by
  simp only [SyncJob.bucketRooms, List.mem_map]
  exact ⟨k, hk, rfl⟩

/-! ## The claims on the content of a room and on the token -/

namespace SyncJob

/-- C11: a room entry under `rooms.join` with the key `k` whose `timeline` has
`events` equal to the array `es`, `limited` equal to `b` and `prev_batch` equal
to `t` yields, among the rooms of a fresh job, the `SyncRoomData` with room id
`k` and join state `Join` whose timeline holds the elements of `es` in their
order (so it has the length of `es`), whose `timelineLimited` is `b` and whose
`timelinePrevBatch` is `t`. -/
theorem join_timeline_round_trip (data : QJsonDocument) (k : String) (room tl : QJsonObject)
    (es : QJsonArray) (b : Bool) (t : String)
    (hk : k ∈ (((data.object.value "rooms").toObject.value "join").toObject).keys)
    (hroom :
      (((data.object.value "rooms").toObject.value "join").toObject).value k =
        QJsonValue.object room)
    (htl : room.value "timeline" = QJsonValue.object tl)
    (hes : tl.value "events" = QJsonValue.array es)
    (hb : tl.value "limited" = QJsonValue.bool b)
    (ht : tl.value "prev_batch" = QJsonValue.string t) :
    SyncRoomData.create eventsFromJson k JoinState.Join room ∈
        (parseJson eventsFromJson data Private.create).2.roomData ∧
      (SyncRoomData.create eventsFromJson k JoinState.Join room).roomId = k ∧
      (SyncRoomData.create eventsFromJson k JoinState.Join room).joinState = JoinState.Join ∧
      (SyncRoomData.create eventsFromJson k JoinState.Join room).timeline.events = es ∧
      (SyncRoomData.create eventsFromJson k JoinState.Join room).timeline.events.length =
        es.length ∧
      (SyncRoomData.create eventsFromJson k JoinState.Join room).timelineLimited = b ∧
      (SyncRoomData.create eventsFromJson k JoinState.Join room).timelinePrevBatch = t := by
  refine ⟨?_, rfl, rfl, ?_, ?_, ?_, ?_⟩
  · rw [parseJson_eq]
    have hmem := mem_bucketRooms eventsFromJson (data.object.value "rooms").toObject "join"
      JoinState.Join k hk
    rw [hroom] at hmem
    simp only [Private.create, List.nil_append, List.mem_append]
    exact Or.inl (Or.inl hmem)
  · simp [SyncRoomData.create, EventList.fromJson, EventList.create, htl, hes,
      QJsonValue.toObject, QJsonValue.toArray, eventsFromJson]
  · simp [SyncRoomData.create, EventList.fromJson, EventList.create, htl, hes,
      QJsonValue.toObject, QJsonValue.toArray, eventsFromJson]
  · simp [SyncRoomData.create, htl, hb, QJsonValue.toObject, QJsonValue.toBool]
  · simp [SyncRoomData.create, htl, ht, QJsonValue.toObject, QJsonValue.toString]

/-- C11 at the round-trip example: the room "!a:x" with two timeline events,
`limited` true and `prev_batch` "t1". -/
theorem join_timeline_round_trip_witness :
    (SyncRoomData.create eventsFromJson "!a:x" JoinState.Join
          [("timeline",
            QJsonValue.object
              [("events",
                QJsonValue.array
                  [QJsonValue.object [("event_id", QJsonValue.string "e1")],
                    QJsonValue.object [("event_id", QJsonValue.string "e2")]]),
                ("limited", QJsonValue.bool true),
                ("prev_batch", QJsonValue.string "t1")])]) ∈
        (parseJson eventsFromJson Sample.roundTrip Private.create).2.roomData ∧
      (SyncRoomData.create eventsFromJson "!a:x" JoinState.Join
          [("timeline",
            QJsonValue.object
              [("events",
                QJsonValue.array
                  [QJsonValue.object [("event_id", QJsonValue.string "e1")],
                    QJsonValue.object [("event_id", QJsonValue.string "e2")]]),
                ("limited", QJsonValue.bool true),
                ("prev_batch", QJsonValue.string "t1")])]).timeline.events =
        [QJsonValue.object [("event_id", QJsonValue.string "e1")],
          QJsonValue.object [("event_id", QJsonValue.string "e2")]] :=
  have h := join_timeline_round_trip Sample.roundTrip "!a:x"
    [("timeline",
      QJsonValue.object
        [("events",
          QJsonValue.array
            [QJsonValue.object [("event_id", QJsonValue.string "e1")],
              QJsonValue.object [("event_id", QJsonValue.string "e2")]]),
          ("limited", QJsonValue.bool true),
          ("prev_batch", QJsonValue.string "t1")])]
    [("events",
      QJsonValue.array
        [QJsonValue.object [("event_id", QJsonValue.string "e1")],
          QJsonValue.object [("event_id", QJsonValue.string "e2")]]),
      ("limited", QJsonValue.bool true),
      ("prev_batch", QJsonValue.string "t1")]
    [QJsonValue.object [("event_id", QJsonValue.string "e1")],
      QJsonValue.object [("event_id", QJsonValue.string "e2")]]
    true "t1" (by decide) rfl rfl rfl rfl rfl
  ⟨h.1, h.2.2.2.1⟩

/-- C13: after `parseJson`, whatever the job held before, `nextBatch()` is the
string under the top-level key `next_batch` of the document: that string when
the member is a string, and the empty string when the member is absent or is
the empty string. -/
theorem parseJson_nextBatch {Ev : Type} (eventsFromJson : QJsonArray → List Ev)
    (data : QJsonDocument) (d : Private Ev) :
    nextBatch (parseJson eventsFromJson data d).2 =
        (data.object.value "next_batch").toString ∧
      (∀ t : String,
        data.object.value "next_batch" = QJsonValue.string t →
          nextBatch (parseJson eventsFromJson data d).2 = t) ∧
      ("next_batch" ∉ data.object.keys →
        nextBatch (parseJson eventsFromJson data d).2 = "") ∧
      (data.object.value "next_batch" = QJsonValue.string "" →
        nextBatch (parseJson eventsFromJson data d).2 = "") := by
  have h : nextBatch (parseJson eventsFromJson data d).2 =
      (data.object.value "next_batch").toString := by
    rw [parseJson_eq]
    rfl
  refine ⟨h, ?_, ?_, ?_⟩
  · intro t ht
    rw [h, ht]
    rfl
  · intro habsent
    rw [h, QJsonObject.value_of_not_mem_keys _ _ habsent]
    rfl
  · intro ht
    rw [h, ht]
    rfl

/-- C20: `parseJson` returns `Success` for every document and every state of the
job.  When the top level is no object, the token is empty and no room is
added; when `rooms` is absent or no object, no room is added; a bucket that is
no object adds no room; a room entry that is no object yields the room built
from the empty object, whose five event lists are empty as soon as
`eventsFromJson` maps the empty array to no events. -/
theorem parseJson_always_succeeds {Ev : Type} (eventsFromJson : QJsonArray → List Ev)
    (data : QJsonDocument) (d : Private Ev) :
    (parseJson eventsFromJson data d).1 = Status.ofCode StatusCode.Success ∧
      (parseJson eventsFromJson data d).1.code = 0 ∧
      (parseJson eventsFromJson data d).1.code ≠ StatusCode.JsonParseError ∧
      (data.isObject = false →
        (parseJson eventsFromJson data d).2.nextBatch = "" ∧
          (parseJson eventsFromJson data d).2.roomData = d.roomData) ∧
      ((data.object.value "rooms").toObject = [] →
        (parseJson eventsFromJson data d).2.roomData = d.roomData) ∧
      (∀ (key : String) (st : JoinState),
        ((data.object.value "rooms").toObject.value key).toObject = [] →
          bucketRooms eventsFromJson (data.object.value "rooms").toObject (key, st) = []) ∧
      (∀ (k : String) (st : JoinState) (entry : QJsonValue),
        entry.toObject = [] →
          SyncRoomData.create eventsFromJson k st entry.toObject =
              SyncRoomData.create eventsFromJson k st [] ∧
            (eventsFromJson [] = [] →
              (SyncRoomData.create eventsFromJson k st entry.toObject).state.events = [] ∧
                (SyncRoomData.create eventsFromJson k st entry.toObject).timeline.events = [] ∧
                (SyncRoomData.create eventsFromJson k st entry.toObject).ephemeral.events =
                  [] ∧
                (SyncRoomData.create eventsFromJson k st entry.toObject).accountData.events =
                  [] ∧
                (SyncRoomData.create eventsFromJson k st entry.toObject).inviteState.events =
                  [])) := by
  refine ⟨?_, ?_, ?_, ?_, ?_, ?_, ?_⟩
  · rw [parseJson_eq]
  · rw [parseJson_eq]
    rfl
  · rw [parseJson_eq]
    simp [Status.ofCode, StatusCode.Success, StatusCode.JsonParseError]
  · intro hno
    rw [parseJson_eq]
    cases data <;> simp_all [QJsonDocument.isObject, QJsonDocument.object, QJsonObject.value,
      QJsonValue.toString, QJsonValue.toObject, bucketRooms, QJsonObject.keys]
  · intro hrooms
    rw [parseJson_eq, hrooms]
    simp [bucketRooms, QJsonObject.value, QJsonValue.toObject, QJsonObject.keys]
  · intro key st hbucket
    simp [bucketRooms, hbucket, QJsonObject.keys]
  · intro k st entry hentry
    rw [hentry]
    refine ⟨rfl, ?_⟩
    intro hempty
    cases st <;>
      simp [SyncRoomData.create, EventList.fromJson, EventList.create, QJsonObject.value,
        QJsonValue.toObject, QJsonValue.toArray, hempty]

end SyncJob

/-- C12: the four scalar members of a `SyncRoomData` do not depend on the room id
or the join state it is built with.  They are `timeline.limited` read as a
boolean, `timeline.prev_batch` read as a string, and
`unread_notifications.highlight_count` and
`unread_notifications.notification_count` read as integers: the member's value
when it is a boolean, a string, or a whole number that fits an `int`, and
`false`, the empty string, 0 and 0 when the member or its parent object is
absent. -/
theorem SyncRoomData.create_scalars {Ev : Type} (eventsFromJson : QJsonArray → List Ev)
    (id1 id2 : String) (js1 js2 : JoinState) (room : QJsonObject) :
    ((SyncRoomData.create eventsFromJson id1 js1 room).timelineLimited =
          (SyncRoomData.create eventsFromJson id2 js2 room).timelineLimited ∧
        (SyncRoomData.create eventsFromJson id1 js1 room).timelinePrevBatch =
          (SyncRoomData.create eventsFromJson id2 js2 room).timelinePrevBatch ∧
        (SyncRoomData.create eventsFromJson id1 js1 room).highlightCount =
          (SyncRoomData.create eventsFromJson id2 js2 room).highlightCount ∧
        (SyncRoomData.create eventsFromJson id1 js1 room).notificationCount =
          (SyncRoomData.create eventsFromJson id2 js2 room).notificationCount) ∧
      ((SyncRoomData.create eventsFromJson id1 js1 room).timelineLimited =
          ((room.value "timeline").toObject.value "limited").toBool ∧
        (SyncRoomData.create eventsFromJson id1 js1 room).timelinePrevBatch =
          ((room.value "timeline").toObject.value "prev_batch").toString ∧
        (SyncRoomData.create eventsFromJson id1 js1 room).highlightCount =
          ((room.value "unread_notifications").toObject.value "highlight_count").toInt ∧
        (SyncRoomData.create eventsFromJson id1 js1 room).notificationCount =
          ((room.value "unread_notifications").toObject.value "notification_count").toInt) ∧
      ((∀ b : Bool,
          (room.value "timeline").toObject.value "limited" = QJsonValue.bool b →
            (SyncRoomData.create eventsFromJson id1 js1 room).timelineLimited = b) ∧
        (∀ t : String,
          (room.value "timeline").toObject.value "prev_batch" = QJsonValue.string t →
            (SyncRoomData.create eventsFromJson id1 js1 room).timelinePrevBatch = t) ∧
        (∀ n : Int,
          -(2 : Int) ^ 31 ≤ n → n < (2 : Int) ^ 31 →
          (room.value "unread_notifications").toObject.value "highlight_count" =
              QJsonValue.double (n : ℚ) →
            (SyncRoomData.create eventsFromJson id1 js1 room).highlightCount = n) ∧
        (∀ n : Int,
          -(2 : Int) ^ 31 ≤ n → n < (2 : Int) ^ 31 →
          (room.value "unread_notifications").toObject.value "notification_count" =
              QJsonValue.double (n : ℚ) →
            (SyncRoomData.create eventsFromJson id1 js1 room).notificationCount = n)) ∧
      (("timeline" ∉ room.keys →
          (SyncRoomData.create eventsFromJson id1 js1 room).timelineLimited = false ∧
            (SyncRoomData.create eventsFromJson id1 js1 room).timelinePrevBatch = "") ∧
        ("limited" ∉ (room.value "timeline").toObject.keys →
          (SyncRoomData.create eventsFromJson id1 js1 room).timelineLimited = false) ∧
        ("prev_batch" ∉ (room.value "timeline").toObject.keys →
          (SyncRoomData.create eventsFromJson id1 js1 room).timelinePrevBatch = "") ∧
        ("unread_notifications" ∉ room.keys →
          (SyncRoomData.create eventsFromJson id1 js1 room).highlightCount = 0 ∧
            (SyncRoomData.create eventsFromJson id1 js1 room).notificationCount = 0) ∧
        ("highlight_count" ∉ (room.value "unread_notifications").toObject.keys →
          (SyncRoomData.create eventsFromJson id1 js1 room).highlightCount = 0) ∧
        ("notification_count" ∉ (room.value "unread_notifications").toObject.keys →
          (SyncRoomData.create eventsFromJson id1 js1 room).notificationCount = 0)) := by
  refine ⟨⟨rfl, rfl, rfl, rfl⟩, ⟨rfl, rfl, rfl, rfl⟩, ⟨?_, ?_, ?_, ?_⟩, ?_, ?_, ?_, ?_, ?_, ?_⟩
  · intro b hb
    simp [SyncRoomData.create, hb, QJsonValue.toBool]
  · intro t ht
    simp [SyncRoomData.create, ht, QJsonValue.toString]
  · intro n hlo hhi hn
    have hfit : (n : ℚ).den = 1 ∧ -(2 : Int) ^ 31 ≤ n ∧ n < (2 : Int) ^ 31 :=
      ⟨Rat.intCast_den n, hlo, hhi⟩
    simp only [SyncRoomData.create, hn, QJsonValue.toInt, Rat.intCast_num]
    exact if_pos hfit
  · intro n hlo hhi hn
    have hfit : (n : ℚ).den = 1 ∧ -(2 : Int) ^ 31 ≤ n ∧ n < (2 : Int) ^ 31 :=
      ⟨Rat.intCast_den n, hlo, hhi⟩
    simp only [SyncRoomData.create, hn, QJsonValue.toInt, Rat.intCast_num]
    exact if_pos hfit
  · intro habsent
    have hv := QJsonObject.value_of_not_mem_keys _ _ habsent
    simp only [SyncRoomData.create, hv, QJsonValue.toObject]
    exact ⟨rfl, rfl⟩
  · intro habsent
    simp [SyncRoomData.create, QJsonObject.value_of_not_mem_keys _ _ habsent,
      QJsonValue.toBool]
  · intro habsent
    simp [SyncRoomData.create, QJsonObject.value_of_not_mem_keys _ _ habsent,
      QJsonValue.toString]
  · intro habsent
    have hv := QJsonObject.value_of_not_mem_keys _ _ habsent
    simp only [SyncRoomData.create, hv, QJsonValue.toObject]
    exact ⟨rfl, rfl⟩
  · intro habsent
    simp [SyncRoomData.create, QJsonObject.value_of_not_mem_keys _ _ habsent,
      QJsonValue.toInt]
  · intro habsent
    simp [SyncRoomData.create, QJsonObject.value_of_not_mem_keys _ _ habsent,
      QJsonValue.toInt]

/-- C16: `good()` holds exactly when the code is below `ErrorLevel`, which is
100; so the code 0 of `NoError` and `Success` is good, and `NetworkError` = 100,
`JsonParseError` = 101, `TimeoutError` = 102, `ContentAccessError` = 103 and
every code from `UserDefinedError` = 200 on are not good. -/
theorem Status.good_iff_below_error_level (s : Status) :
    (s.good = true ↔ s.code < 100) ∧
      StatusCode.ErrorLevel = 100 ∧
      (StatusCode.NoError = 0 ∧ StatusCode.Success = 0 ∧
        (Status.ofCode StatusCode.NoError).good = true ∧
        (Status.ofCode StatusCode.Success).good = true) ∧
      (StatusCode.NetworkError = 100 ∧ StatusCode.JsonParseError = 101 ∧
        StatusCode.TimeoutError = 102 ∧ StatusCode.ContentAccessError = 103 ∧
        StatusCode.UserDefinedError = 200) ∧
      (∀ m : String,
        (Status.mk StatusCode.NetworkError m).good = false ∧
          (Status.mk StatusCode.JsonParseError m).good = false ∧
          (Status.mk StatusCode.TimeoutError m).good = false ∧
          (Status.mk StatusCode.ContentAccessError m).good = false) ∧
      (StatusCode.UserDefinedError ≤ s.code → s.good = false) := by
  refine ⟨?_, rfl, ⟨rfl, rfl, by decide, by decide⟩, ⟨rfl, rfl, rfl, rfl, rfl⟩, ?_, ?_⟩
  · simp [Status.good, StatusCode.ErrorLevel]
  · intro m
    simp [Status.good, StatusCode.ErrorLevel, StatusCode.NetworkError, StatusCode.JsonParseError,
      StatusCode.TimeoutError, StatusCode.ContentAccessError]
  · intro h
    simp only [StatusCode.UserDefinedError] at h
    simp only [Status.good, StatusCode.ErrorLevel, decide_eq_false_iff_not]
    omega

/-! ## The claims on the request and on the decoders -/

/-- The decimal text `QString::number` gives for a number that is not negative
is the text of the natural number. -/
theorem QString.number_of_nonneg (n : Int) (h : 0 ≤ n) :
    QString.number n = toString n.toNat := by
  cases n with
  | ofNat m => rfl
  | negSucc m => exact absurd h (by simp)

/-- C14: the request of a `SyncJob` is a GET on `_matrix/client/r0/sync` whose
query holds, in this order, `filter` if and only if the filter is not empty,
`set_presence` if and only if the presence is not empty, `timeout` with the
decimal text of the timeout if and only if the timeout is not negative, and
`since` if and only if the token is not empty; with all strings empty and a
negative timeout the query is empty. -/
theorem SyncJob.create_query (jobId : Nat) (since filter : String) (timeout : Int)
    (presence : String) :
    (SyncJob.create jobId since filter timeout presence).1.type = JobHttpType.GetJob ∧
      (SyncJob.create jobId since filter timeout presence).1.apiPath =
        "_matrix/client/r0/sync" ∧
      (SyncJob.create jobId since filter timeout presence).1.query =
        (if filter ≠ "" then [("filter", filter)] else []) ++
          (if presence ≠ "" then [("set_presence", presence)] else []) ++
          (if 0 ≤ timeout then [("timeout", toString timeout.toNat)] else []) ++
          (if since ≠ "" then [("since", since)] else []) ∧
      (filter = "" → presence = "" → timeout < 0 → since = "" →
        (SyncJob.create jobId since filter timeout presence).1.query = []) := by
  refine ⟨rfl, rfl, ?_, ?_⟩
  · by_cases hf : filter = "" <;> by_cases hp : presence = "" <;>
      by_cases ht : 0 ≤ timeout <;> by_cases hs : since = "" <;>
      simp [SyncJob.create, RequestConfig.setQuery, QUrlQuery.addQueryItem, QString.isEmpty,
        hf, hp, ht, hs, QString.number_of_nonneg]
  · intro hf hp ht hs
    have hneg : ¬ 0 ≤ timeout := by omega
    simp [SyncJob.create, RequestConfig.setQuery, QUrlQuery.addQueryItem, QString.isEmpty,
      hf, hp, hneg, hs]

/-- C17: the request `sendRequest` builds has the path of the base URL followed
by the `apiPath` of the request description; its query is the query of the
description with the item `access_token` and the access token of the connection
appended last when `needsToken` is set, and exactly the query of the
description when it is not set. -/
theorem BaseJob.Private.sendRequest_target (qt56 : Bool) (connection : ConnectionData)
    (rc : RequestConfig) :
    (BaseJob.Private.sendRequest qt56 connection rc).request.url.path =
        connection.baseUrl.path ++ rc.apiPath ∧
      (rc.needsToken = true →
        (BaseJob.Private.sendRequest qt56 connection rc).request.url.query =
          rc.query ++ [("access_token", connection.accessToken)]) ∧
      (rc.needsToken = false →
        (BaseJob.Private.sendRequest qt56 connection rc).request.url.query = rc.query) := by
  obtain ⟨name, type, apiPath, query, data, needsToken⟩ := rc
  cases type <;> cases needsToken <;>
    simp [BaseJob.Private.sendRequest, NamCall.request, QUrl.setPath, QUrl.setQuery,
      QUrlQuery.addQueryItem]

/-- C15: `FromJsonObject::load` returns an error result exactly when the body is
not valid JSON or the document is no object, and the error then has the code
`JsonParseError` (101); for a body that is not valid JSON the message is
"Invalid JSON: ", the parser's error string, " at offset " and the decimal
offset; for a valid body whose document is an object the result is that
object. -/
theorem ServerApi.FromJsonObject.load_result
    (fromJson : QByteArray → QJsonDocument × QJsonParseError) (reply : QNetworkReply) :
    ((∃ m : String,
          ServerApi.FromJsonObject.load fromJson reply =
            ServerApi.Result.error { code := 101, message := m }) ↔
        ((fromJson reply.buffer).2.error ≠ QJsonParseError.NoError ∨
          (fromJson reply.buffer).1.isObject = false)) ∧
      ((∃ st : Status, ServerApi.FromJsonObject.load fromJson reply = ServerApi.Result.error st) ↔
        ((fromJson reply.buffer).2.error ≠ QJsonParseError.NoError ∨
          (fromJson reply.buffer).1.isObject = false)) ∧
      ((fromJson reply.buffer).2.error ≠ QJsonParseError.NoError →
        ServerApi.FromJsonObject.load fromJson reply =
          ServerApi.Result.error
            { code := 101
              message :=
                "Invalid JSON: " ++ (fromJson reply.buffer).2.errorString ++ " at offset " ++
                  toString (fromJson reply.buffer).2.offset }) ∧
      (∀ o : QJsonObject,
        (fromJson reply.buffer).2.error = QJsonParseError.NoError →
        (fromJson reply.buffer).1 = QJsonDocument.ofObject o →
          ServerApi.FromJsonObject.load fromJson reply = ServerApi.Result.value o) := by
  unfold ServerApi.FromJsonObject.load
  simp only [QNetworkReply.readAll, ServerApi.JsonParseError]
  by_cases herr : (fromJson reply.buffer).2.error = QJsonParseError.NoError
  · cases hdoc : (fromJson reply.buffer).1 <;>
      simp [herr, hdoc, QJsonDocument.isObject, QJsonDocument.object]
  · simp [herr]

namespace BaseJob

variable {σ : Type}

/-- C18: for a job with the default `checkReply`, `parseReply` and `parseJson`,
a reply without transport error whose body is valid JSON, whatever document it
holds, ends the job with the status `Success` (code 0, good) and the signals
`finished`, `result`, `success`, in this order. -/
theorem valid_json_default_succeeds (fromJson : QByteArray → QJsonDocument × QJsonParseError)
    (r : QNetworkReply) (j : BaseJob σ)
    (hok : r.error = NetworkError.NoError)
    (hvalid : (fromJson r.buffer).2.error = QJsonParseError.NoError) :
    (gotReply (defaultVirtuals fromJson parseJson) r j).status =
        Status.ofCode StatusCode.Success ∧
      (gotReply (defaultVirtuals fromJson parseJson) r j).status.code = 0 ∧
      (gotReply (defaultVirtuals fromJson parseJson) r j).status.good = true ∧
      (gotReply (defaultVirtuals fromJson parseJson) r j).emitted =
        j.emitted ++ [Signal.finished, Signal.result, Signal.success] := by
  have hcheck : ((defaultVirtuals fromJson parseJson).checkReply j.sub r).good = true := by
    simp [defaultVirtuals, checkReply, hok, Status.good, Status.ofCode, StatusCode.NoError,
      StatusCode.ErrorLevel]
  have hparse : (defaultVirtuals fromJson parseJson).parseReply r.buffer j.sub =
      (Status.ofCode StatusCode.Success, j.sub) := by
    simp [defaultVirtuals, parseReply, hvalid, parseJson]
  have hst := (gotReply_of_good (defaultVirtuals fromJson parseJson) r j hcheck).1
  rw [hparse] at hst
  simp only at hst
  refine ⟨hst, ?_, ?_, ?_⟩
  · rw [hst]; rfl
  · rw [hst]; simp [Status.good, Status.ofCode, StatusCode.Success, StatusCode.ErrorLevel]
  · rw [gotReply_emitted, hst]
    simp [Status.ofCode, StatusCode.Success]

/-- C18 at a sample input: a reply without transport error whose body is the
text of the empty object. -/
theorem valid_json_default_succeeds_witness :
    (gotReply Sample.plain Sample.okReply Sample.startedJob).status.code = 0 ∧
      (gotReply Sample.plain Sample.okReply Sample.startedJob).emitted =
        [Signal.finished, Signal.result, Signal.success] :=
  have h := valid_json_default_succeeds Sample.fromJson Sample.okReply Sample.startedJob rfl
    (by decide)
  ⟨h.2.1, h.2.2.2⟩

/-- C19: `start()` leaves the timer running with an interval of 120000 ms; each
of `gotReply`, `timeout` and `abandon()` leaves the timer stopped, whatever the
state of the job; so after `start()` and one or more terminal events the timer
is stopped. -/
theorem timer_armed_then_stopped (v : Virtuals σ) (r : QNetworkReply) (j : BaseJob σ)
    (es : List Event) :
    (start r j).timer.active = true ∧
      (start r j).timer.interval = 120000 ∧
      (∀ r2 : QNetworkReply, (gotReply v r2 j).timer.active = false) ∧
      (timeout j).timer.active = false ∧
      (abandon j).timer.active = false ∧
      (∀ e : Event, (deliver v (start r j) (es ++ [e])).timer.active = false) := by
  refine ⟨rfl, rfl, fun r2 => (finishJob_timer _ _).1, (finishJob_timer _ _).1,
    (finishJob_timer _ _).1, ?_⟩
  intro e
  cases es with
  | nil => exact handle_start_timer v r j e
  | cons e0 rest =>
      exact deliver_timer_stays_stopped v (handle v (start r j) e0) (rest ++ [e])
        (handle_start_timer v r j e0)

end BaseJob

/-! ## The claim on `User::processEvent` -/

namespace User

variable {Pixmap : Type}

/-- The state after a `RoomMember` event, member by member. -/
theorem processEvent_roomMember (e : RoomMemberEvent) (u : User Pixmap) :
    processEvent (Event.roomMember e) u =
      { u with
        name := e.displayName
        avatarUrl := e.avatarUrl
        avatarValid := if u.avatarUrl = e.avatarUrl then u.avatarValid else false
        emitted :=
          if u.name = e.displayName then u.emitted
          else u.emitted ++ [UserSignal.nameChanged u.name] } := by
  unfold processEvent
  by_cases hn : u.name = e.displayName <;> by_cases ha : u.avatarUrl = e.avatarUrl <;>
    simp [hn, ha]
  rw [← hn, ← ha]

/-- C21: an event whose type is not `RoomMember` leaves the user as it was,
emitted signals included.  After a `RoomMember` event the name and the avatar
URL are those of the event; `nameChanged` with the old name is the one signal
emitted when the name differed, and no signal is emitted when it did not;
`avatarValid` is cleared when the avatar URL differed and kept when it did not;
every other member is kept; processing the same event once more changes
nothing and emits nothing. -/
theorem processEvent_member_update (event : Event) (e : RoomMemberEvent) (u : User Pixmap) :
    (event.type ≠ EventType.RoomMember → processEvent event u = u) ∧
      ((processEvent (Event.roomMember e) u).name = e.displayName ∧
        (processEvent (Event.roomMember e) u).avatarUrl = e.avatarUrl) ∧
      (((processEvent (Event.roomMember e) u).emitted =
            u.emitted ++ [UserSignal.nameChanged u.name] ↔
          u.name ≠ e.displayName) ∧
        ((processEvent (Event.roomMember e) u).emitted = u.emitted ↔
          u.name = e.displayName)) ∧
      ((u.avatarUrl ≠ e.avatarUrl →
          (processEvent (Event.roomMember e) u).avatarValid = false) ∧
        (u.avatarUrl = e.avatarUrl →
          (processEvent (Event.roomMember e) u).avatarValid = u.avatarValid)) ∧
      ((processEvent (Event.roomMember e) u).userId = u.userId ∧
        (processEvent (Event.roomMember e) u).avatar = u.avatar ∧
        (processEvent (Event.roomMember e) u).requestedSize = u.requestedSize ∧
        (processEvent (Event.roomMember e) u).avatarOngoingRequest = u.avatarOngoingRequest ∧
        (processEvent (Event.roomMember e) u).scaledAvatars = u.scaledAvatars) ∧
      processEvent (Event.roomMember e) (processEvent (Event.roomMember e) u) =
        processEvent (Event.roomMember e) u := by
  refine ⟨?_, ?_, ⟨?_, ?_⟩, ⟨?_, ?_⟩, ?_, ?_⟩
  · intro hty
    cases event with
    | roomMember e2 => exact absurd rfl hty
    | other raw => rfl
  · rw [processEvent_roomMember]
    exact ⟨rfl, rfl⟩
  · rw [processEvent_roomMember]
    by_cases hn : u.name = e.displayName <;> simp [hn]
  · rw [processEvent_roomMember]
    by_cases hn : u.name = e.displayName <;> simp [hn]
  · intro ha
    rw [processEvent_roomMember]
    simp [ha]
  · intro ha
    rw [processEvent_roomMember]
    simp [ha]
  · rw [processEvent_roomMember]
    exact ⟨rfl, rfl, rfl, rfl, rfl⟩
  · rw [processEvent_roomMember e (processEvent (Event.roomMember e) u)]
    rw [processEvent_roomMember e u]
    simp

end User

end QMatrixClient
